import Mathlib

/-!
Shallow embedding of the transport core of the `ire` I2P router
(`src/transport/mod.rs` and `src/transport/ntcp/mod.rs`), together with
theorems settling the specification claims about it.

Bytes are modelled as `Nat` (values < 256), byte strings as `List Nat`,
big integers (`num::BigUint`) as `Nat`.  Fallible Rust code is embedded as
`Except`; panics are embedded as `Except String`.  Modules of the repository
that are not part of the transport core sources (the `crypto`, `constants`,
`data`, `i2np` modules and `ntcp/frame.rs`) are either modelled from the
specification (marked `Modelled from the spec:`) or abstracted as explicit
function parameters.
-/

namespace Ire

set_option maxRecDepth 100000

/-- Big-endian interpretation of a byte string as a natural number
(embeds `num::BigUint::from_bytes_be`). -/
def fromBytesBE (l : List Nat) : Nat := l.foldl (fun acc b => acc * 256 + b) 0

/-- Fuel-driven accumulator loop producing the big-endian byte digits of `n`.
The fuel makes the recursion structural so that the kernel can evaluate it. -/
def natToBytesBEAux : Nat → Nat → List Nat → List Nat
  | 0, _, acc => acc
  | fuel + 1, n, acc =>
      if n = 0 then acc else natToBytesBEAux fuel (n / 256) (n % 256 :: acc)

/-- Minimal big-endian byte serialization of a natural number (embeds
`num::BigUint::to_bytes_be`, which returns `[0]` for zero).  The fuel `260`
covers every value below `2 ^ 2080`, far above the 2048-bit values that occur. -/
def natToBytesBE (n : Nat) : List Nat :=
  if n = 0 then [0] else natToBytesBEAux 260 n []

/-- Fuel-driven square-and-multiply modular exponentiation; the accumulator
holds the partial product reduced mod `p`. -/
def powModAux : Nat → Nat → Nat → Nat → Nat → Nat
  | 0, _, _, _, acc => acc
  | fuel + 1, b, e, p, acc =>
      if e = 0 then acc
      else powModAux fuel (b * b % p) (e / 2) p (if e % 2 = 1 then acc * b % p else acc)

/-- Modular exponentiation `b ^ e mod p` (embeds `num::BigUint::modpow`).
The fuel `4096` is enough for any exponent below `2 ^ 4096`. -/
def powMod (b e p : Nat) : Nat :=
  if p = 0 then 0 else powModAux 4096 (b % p) e p (1 % p)

/-- Modelled from the spec: the process-wide DH modulus from the `constants`
module (absent from the transport sources) — "fixed 2048-bit prime `P` ...
(the documented ElGamal group of the reference ecosystem)", i.e. the
2048-bit MODP group of RFC 3526. -/
def elg_p : Nat :=
  0xffffffffffffffffc90fdaa22168c234c4c6628b80dc1cd129024e088a67cc74020bbea63b139b22514a08798e3404ddef9519b3cd3a431b302b0a6df25f14374fe1356d6d51c245e485b576625e7ec6f44c42e9a637ed6b0bff5cb6f406b7edee386bfb5a899fa5ae9f24117c4b1fe649286651ece45b3dc2007cb8a163bf0598da48361c55d39a69163fa8fd24cf5f83655d23dca3ad961c62f356208552bb9ed529077096966d670c354e4abc9804f1746c08ca18217c32905e462e36ce3be39e772c180e86039b2783a2ec07a28fb5c55df06f4c52c9de2bcbf6955817183995497cea956ae515d2261898fa051015728e5a8aacaa68ffffffffffffffff

/-- Modelled from the spec: the generator of the documented ElGamal group. -/
def elg_g : Nat := 2

/-- Modelled from the spec: `crypto::math::rectify` (absent from the
transport sources) — "serialized as a fixed 256-byte big-endian unsigned
integer, left-padded with zeros". -/
def rectify (n : Nat) (len : Nat) : List Nat :=
  List.replicate (len - (natToBytesBE n).length) 0 ++ natToBytesBE n

/-- `transport::DHSessionKeyBuilder`: a DH private scalar together with the
precomputed public value `elg_g ^ dh_priv mod elg_p`. -/
structure DHSessionKeyBuilder where
  dh_priv : Nat
  dh_pub : Nat
deriving DecidableEq

/-- `DHSessionKeyBuilder::new` with the random 2048-bit scalar made explicit. -/
def DHSessionKeyBuilder.new (dh_priv : Nat) : DHSessionKeyBuilder :=
  { dh_priv := dh_priv, dh_pub := powMod elg_g dh_priv elg_p }

/-- `DHSessionKeyBuilder::get_pub`. -/
def DHSessionKeyBuilder.get_pub (b : DHSessionKeyBuilder) : List Nat :=
  rectify b.dh_pub 256

/-- The serialization half of `DHSessionKeyBuilder::build_session_key`
(the statements after the `modpow` call): serialize the exchanged key
big-endian, prepend `0x00` when the top bit of the first byte is set
(`buf[0] & 0x80 != 0`), append `0x00` bytes up to 32 bytes, and keep the
first 32 bytes. -/
def serializeShared (dh_key : Nat) : List Nat :=
  let buf0 := natToBytesBE dh_key
  let buf1 := if buf0.headD 0 &&& 0x80 ≠ 0 then 0 :: buf0 else buf0
  let buf2 := if buf1.length < 32 then buf1 ++ List.replicate (32 - buf1.length) 0 else buf1
  buf2.take 32

/-- `DHSessionKeyBuilder::build_session_key`: compute the shared secret
`peer ^ dh_priv mod P` and serialize it. -/
def DHSessionKeyBuilder.build_session_key (b : DHSessionKeyBuilder)
    (peer_pub : List Nat) : List Nat :=
  serializeShared (powMod (fromBytesBE peer_pub) b.dh_priv elg_p)

/-- The spec's serialization rule for the shared secret, written from the
spec's words alone (§3 Invariant 3): big-endian two's-complement with a
leading `0x00` when the high bit of the top byte is set, `0x00` bytes
appended on the right up to 32 bytes, first 32 bytes kept. -/
def sessionKeyOfShared (shared : Nat) : List Nat :=
  let ser := natToBytesBE shared
  let ser := if 128 ≤ ser.headD 0 then 0 :: ser else ser
  let ser := if ser.length < 32 then ser ++ List.replicate (32 - ser.length) 0 else ser
  ser.take 32

/-! ### Dispatcher (`transport::Manager`, `src/transport/mod.rs`) -/

/-- `data::Hash`: a 32-byte identity digest (the `data` module is external to
the transport sources; the core uses equality, XOR and byte access). -/
abbrev Hash := List Nat

/-- `i2np::Message`, opaque to the core: its serialized body plus the
alternate NTCP2 size (the `i2np` module is external to the transport
sources; the core only calls `size`, `ntcp2_size`, `serialize`). -/
structure Message where
  payload : List Nat
  ntcp2_size : Nat
deriving DecidableEq

/-- `Message::size`: the serialized length. -/
def Message.size (m : Message) : Nat := m.payload.length

/-- The two transports behind the dispatcher, in their enumeration order in
`Manager::send` (`ntcp` first, `ntcp2` second). -/
inductive TransportKind
  | ntcp
  | ntcp2
deriving DecidableEq

/-- `transport::Engine` (the per-transport engines are opaque here; the
dispatcher stores it once and consumes it on `start`). -/
structure Engine where
  select_flag : Bool
deriving DecidableEq

/-- `transport::Manager`: the two per-transport managers are represented by
their `bid` functions (cost for a peer hash and message size, `none` when
the transport cannot reach the peer — `ntcp::Manager` and `ntcp2::Manager`
are not part of the transport core sources), plus the one-shot engine. -/
structure Manager where
  ntcpBid : Hash → Nat → Option Nat
  ntcp2Bid : Hash → Nat → Option Nat
  engine : Option Engine

/-- `Manager::new`: a fresh dispatcher always carries its engine. -/
def Manager.new (b1 b2 : Hash → Nat → Option Nat) : Manager :=
  { ntcpBid := b1, ntcp2Bid := b2, engine := some { select_flag := false } }

/-- `Iterator::min_by_key` over a list: the first element attaining the
minimum key (Rust's `min_by_key` returns the first of equally minimal
elements), `none` on an empty list. -/
def minByKeyFirst {α : Type} (key : α → Nat) (l : List α) : Option α :=
  l.foldl
    (fun acc x =>
      match acc with
      | none => some x
      | some y => if key x < key y then some x else some y)
    none

/-- `Manager::send` (`impl CommSystem for Manager`): ask `ntcp` with
`msg.size()` and `ntcp2` with `msg.ntcp2_size()` for bids, drop the `None`s,
deliver via the minimum-cost bid, or hand `(hash, msg)` back when no
transport bids.  The `ok` value names the transport whose handle received
the message, with its winning cost. -/
def Manager.send (m : Manager) (hash : Hash) (msg : Message) :
    Except (Hash × Message) (TransportKind × Nat) :=
  let bids := List.filterMap
    (fun x => Option.map (fun c => (x.1, c)) x.2)
    [(TransportKind.ntcp, m.ntcpBid hash msg.size),
     (TransportKind.ntcp2, m.ntcp2Bid hash msg.ntcp2_size)]
  match minByKeyFirst (fun b => b.2) bids with
  | some bid => .ok bid
  | none => .error (hash, msg)

/-- `Manager::start` (`impl CommSystem for Manager`): `self.engine.take()`
followed by `expect("Cannot call listen() twice")`; the panic on a second
call is embedded as an error. -/
def Manager.start (m : Manager) : Except String (Manager × Engine) :=
  match m.engine with
  | some engine => .ok ({ m with engine := none }, engine)
  | none => .error "Cannot call listen() twice"

/-! ### NTCP handshake (`src/transport/ntcp/mod.rs`) -/

/-- `crypto::AES_BLOCK_SIZE`. -/
def AES_BLOCK_SIZE : Nat := 16

/-- `NTCP_MTU`: max NTCP message size is 16kB. -/
def NTCP_MTU : Nat := 16384

/-- Byte-wise XOR (`data::Hash::xor`, external to the transport sources:
the spec gives `Hash` equality, XOR and byte access). -/
def xorBytes (a b : List Nat) : List Nat := List.zipWith (fun x y => x ^^^ y) a b

/-- Big-endian 4-byte serialization of a `u32` timestamp. -/
def be32 (n : Nat) : List Nat :=
  [n / 2 ^ 24 % 256, n / 2 ^ 16 % 256, n / 2 ^ 8 % 256, n % 256]

/-- Big-endian 2-byte serialization of a `u16` size hint. -/
def be16 (n : Nat) : List Nat := [n / 256 % 256, n % 256]

/-- `data::RouterIdentity` (external to the transport sources): the core
uses its canonical 32-byte hash, its wire serialization (387 bytes in the
reference encoding, held abstract), and its signing public key (abstract). -/
structure RouterIdentity where
  hash : Hash
  serialized : List Nat
  signing_key : Nat
deriving DecidableEq

/-- The cryptographic primitives the handshake calls into (`crypto` module,
external to the transport sources), held abstract: SHA-256, Ed25519
signing and verification, and AES-256-CBC block decryption/encryption
keyed by a session key and an IV. -/
structure CryptoModel where
  digest : List Nat → Hash
  sign : Nat → List Nat → List Nat
  verify : Nat → List Nat → List Nat → Bool
  decryptWith : List Nat → List Nat → List Nat → List Nat
  encryptWith : List Nat → List Nat → List Nat → List Nat

/-- `ntcp::SessionRequest` (message 1). -/
structure SessionRequest where
  dh_x : List Nat
  hash : Hash
deriving DecidableEq

/-- `ntcp::SessionCreated` (message 2). -/
structure SessionCreated where
  dh_y : List Nat
  hash : Hash
  ts_b : Nat
deriving DecidableEq

/-- `ntcp::SessionConfirmA` (message 3). -/
structure SessionConfirmA where
  ri_a : RouterIdentity
  ts_a : Nat
  sig : List Nat
deriving DecidableEq

/-- `ntcp::SessionConfirmB` (message 4). -/
structure SessionConfirmB where
  sig : List Nat
deriving DecidableEq

/-- `ntcp::HandshakeFrame`. -/
inductive HandshakeFrame
  | sessionRequest (f : SessionRequest)
  | sessionCreated (f : SessionCreated)
  | sessionConfirmA (f : SessionConfirmA)
  | sessionConfirmB (f : SessionConfirmB)
deriving DecidableEq

/-- `ntcp::HandshakeState` (the codec-side state enum). -/
inductive HandshakeState
  | sessionRequest
  | sessionCreated
  | sessionConfirmA
  | sessionConfirmB
  | established
deriving DecidableEq

/-- `io::Error` kinds the transport core produces. -/
inductive IoErrorKind
  | invalidData
  | invalidInput
  | connectionRefused
  | connectionAborted
  | other
deriving DecidableEq

/-- An `io::Error`: a kind plus its message. -/
structure IoError where
  kind : IoErrorKind
  msg : String
deriving DecidableEq

/-- `ntcp::SharedHandshakeState`. -/
structure SharedHandshakeState where
  own_ri : RouterIdentity
  own_key : Nat
  ri_remote : RouterIdentity
  dh_x : List Nat
  dh_y : List Nat
  ts_a : Nat
  ts_b : Nat
deriving DecidableEq

/-- Modelled from the spec: `frame::gen_session_confirm_sig_msg`
(`ntcp/frame.rs` is absent from the transport sources) serializes the
to-be-signed tuple `dh_x ‖ dh_y ‖ ri ‖ ts_a ‖ ts_b`, with the router
identity's wire serialization between the DH values and the two big-endian
timestamps (base length 907 = 2·256 + 387 + 2·4 per the source comment).
`own_ri` selects whose identity is serialized, as in the source. -/
def gen_session_confirm_sig_msg (state : SharedHandshakeState) (own_ri : Bool) : List Nat :=
  let ri := if own_ri then state.own_ri else state.ri_remote
  state.dh_x ++ state.dh_y ++ ri.serialized ++ be32 state.ts_a ++ be32 state.ts_b

/-- `ntcp::OBHandshakeState`: the outbound handshake state machine, with the
per-state payloads of the `OBHandshake<S>` family inlined
(`OBSessionRequest.hxxorhb`, `OBSessionConfirmA.sig`; the
`IBSessionCreated.rtt_timer` wall-clock value is only read into an unused
local and is omitted). -/
inductive OBHandshakeState
  | sessionRequest (shared : SharedHandshakeState) (hxxorhb : Hash)
  | sessionCreated (shared : SharedHandshakeState)
  | sessionConfirmA (shared : SharedHandshakeState) (sig : List Nat)
  | sessionConfirmB (shared : SharedHandshakeState)
  | established (shared : SharedHandshakeState)
deriving DecidableEq

/-- The state-machine position of an outbound handshake value. -/
def OBHandshakeState.tag : OBHandshakeState → HandshakeState
  | .sessionRequest _ _ => .sessionRequest
  | .sessionCreated _ => .sessionCreated
  | .sessionConfirmA _ _ => .sessionConfirmA
  | .sessionConfirmB _ => .sessionConfirmB
  | .established _ => .established

/-- `OBHandshakeState::is_established`. -/
def OBHandshakeState.is_established : OBHandshakeState → Bool
  | .established _ => true
  | _ => false

/-- The `(state, frame)` pairs `OBHandshakeState::handle_frame` accepts;
every other combination falls into the catch-all arm. -/
def OBHandshakeState.isExpectedPair : OBHandshakeState → HandshakeFrame → Bool
  | .sessionCreated _, .sessionCreated _ => true
  | .sessionConfirmB _, .sessionConfirmB _ => true
  | _, _ => false

/-- `OBHandshakeState::handle_frame`.  `now_ms` is the wall clock at receipt
(`SystemTime::now()` in milliseconds since the UNIX epoch), made an explicit
parameter; `ts_a` is its seconds value rounded by the source's +500 ms,
truncated to `u32`. -/
def OBHandshakeState.handle_frame (c : CryptoModel) (now_ms : Nat)
    (state : OBHandshakeState) (frame : HandshakeFrame) :
    Except IoError Unit × OBHandshakeState :=
  match state, frame with
  | .sessionCreated shared, .sessionCreated sc =>
      let ts_a := (now_ms + 500) / 1000 % 2 ^ 32
      let shared' := { shared with dh_y := sc.dh_y, ts_a := ts_a, ts_b := sc.ts_b }
      let msg := gen_session_confirm_sig_msg shared' false
      let hxy := c.digest (msg.take 512)
      if hxy ≠ sc.hash then
        (.error { kind := .invalidData, msg := "Invalid SessionCreated hash" },
         .sessionCreated shared')
      else
        (.ok (), .sessionConfirmA shared' (c.sign shared'.own_key msg))
  | .sessionConfirmB shared, .sessionConfirmB scb =>
      let msg := gen_session_confirm_sig_msg shared true
      if ¬ c.verify shared.ri_remote.signing_key msg scb.sig then
        (.error { kind := .connectionRefused, msg := "Invalid SessionConfirmB signature" },
         .sessionConfirmB shared)
      else
        (.ok (), .established shared)
  | s, _ =>
      (.error { kind := .invalidData, msg := "Unexpected handshake frame" }, s)

/-- `OBHandshakeState::next_frame`. -/
def OBHandshakeState.next_frame : OBHandshakeState → Option HandshakeFrame × OBHandshakeState
  | .sessionRequest shared hxxorhb =>
      (some (.sessionRequest { dh_x := shared.dh_x, hash := hxxorhb }),
       .sessionCreated shared)
  | .sessionConfirmA shared sig =>
      (some (.sessionConfirmA { ri_a := shared.own_ri, ts_a := shared.ts_a, sig := sig }),
       .sessionConfirmB shared)
  | s => (none, s)

/-! ### Handshake codecs and IV seeding (`src/transport/ntcp/mod.rs`) -/

/-- `crypto::Aes256` (the cipher internals are external to the transport
sources): records the construction arguments of `Aes256::new` — the
session key and the two chaining IVs. -/
structure Aes256 where
  key : List Nat
  iv_enc : List Nat
  iv_dec : List Nat
deriving DecidableEq

/-- `ntcp::OutboundHandshakeCodec` (the `Framed` upstream codec state). -/
structure OutboundHandshakeCodec where
  dh_key_builder : DHSessionKeyBuilder
  iv_enc : List Nat
  ri_remote : RouterIdentity
  state : HandshakeState
  aes : Option Aes256
  decrypted : Nat
deriving DecidableEq

/-- `OutboundHandshakeCodec::new`. -/
def OutboundHandshakeCodec.new (dh_key_builder : DHSessionKeyBuilder)
    (iv_enc : List Nat) (ri_remote : RouterIdentity) : OutboundHandshakeCodec :=
  { dh_key_builder := dh_key_builder, iv_enc := iv_enc, ri_remote := ri_remote,
    state := .sessionRequest, aes := none, decrypted := 0 }

/-- `ntcp::InboundHandshakeCodec`. -/
structure InboundHandshakeCodec where
  dh_key_builder : DHSessionKeyBuilder
  dh_x : List Nat
  iv_enc : List Nat
  iv_dec : List Nat
  state : HandshakeState
  aes : Option Aes256
  decrypted : Nat
deriving DecidableEq

/-- `InboundHandshakeCodec::new`: the decrypt IV starts zeroed. -/
def InboundHandshakeCodec.new (dh_key_builder : DHSessionKeyBuilder)
    (iv_enc : List Nat) : InboundHandshakeCodec :=
  { dh_key_builder := dh_key_builder, dh_x := [], iv_enc := iv_enc,
    iv_dec := List.replicate AES_BLOCK_SIZE 0, state := .sessionRequest,
    aes := none, decrypted := 0 }

/-- Modelled from the spec: `frame::session_request` (`ntcp/frame.rs` is
absent from the transport sources) parses message 1 — 256 bytes `dh_x` then
the 32-byte hash `H(dh_x) XOR H(peer_ri)`; 288 bytes consumed, `none` when
the buffer is still incomplete. -/
def session_request (buf : List Nat) : Option (SessionRequest × Nat) :=
  if buf.length < 288 then none
  else some ({ dh_x := buf.take 256, hash := (buf.drop 256).take 32 }, 288)

/-- Modelled from the spec: `frame::session_created_enc` parses message 2's
outer layer — 256 bytes `dh_y` then the 48-byte AES-CBC encrypted block
(32-byte hash, 4-byte `ts_b`, padding); 304 bytes consumed. -/
def session_created_enc (buf : List Nat) : Option (List Nat × List Nat × Nat) :=
  if buf.length < 304 then none
  else some (buf.take 256, (buf.drop 256).take 48, 304)

/-- Modelled from the spec: `frame::session_created_dec` parses the
decrypted inner block of message 2 — a 32-byte hash then the 4-byte
big-endian `ts_b`. -/
def session_created_dec (buf : List Nat) : Option (Hash × Nat) :=
  if buf.length < 36 then none
  else some (buf.take 32, fromBytesBE ((buf.drop 32).take 4))

/-- The `HandshakeState::SessionRequest` arm of
`InboundHandshakeCodec::decode`: parse message 1, save `dh_x`, seed the
*decrypt*-side IV with the last 16 bytes of the hash field
(`self.iv_dec.copy_from_slice(&sr.hash.0[AES_BLOCK_SIZE..])`), consume the
parsed bytes and advance to `SessionCreated`. -/
def InboundHandshakeCodec.decode_session_request (codec : InboundHandshakeCodec)
    (buf : List Nat) :
    Except IoError (Option (HandshakeFrame × InboundHandshakeCodec × List Nat)) :=
  match session_request buf with
  | none => .ok none
  | some (sr, consumed) =>
      .ok (some (.sessionRequest sr,
        { codec with
          dh_x := sr.dh_x
          iv_dec := sr.hash.drop AES_BLOCK_SIZE
          state := .sessionCreated },
        buf.drop consumed))

/-- The `HandshakeState::SessionCreated` arm of
`OutboundHandshakeCodec::decode`: parse message 2's outer layer, build the
session key from the first 256 bytes (`array_ref![sce.0, 0, 256]`),
construct the AES state from it with the codec's encrypt IV and, as
decrypt IV, the last `AES_BLOCK_SIZE` bytes of `dh_y`
(`array_ref![sce.0, sce.0.len() - AES_BLOCK_SIZE, AES_BLOCK_SIZE]`),
decrypt the 48-byte tail with it, parse the inner block, consume the
parsed bytes and advance to `SessionConfirmA`.  (The tail handed over by
the parser is always a whole number of AES blocks, so `decrypt_blocks`'s
partial-progress branches do not arise.) -/
def OutboundHandshakeCodec.decode_session_created (c : CryptoModel)
    (codec : OutboundHandshakeCodec) (buf : List Nat) :
    Except IoError (Option (HandshakeFrame × OutboundHandshakeCodec × List Nat)) :=
  match session_created_enc buf with
  | none => .ok none
  | some (dh_y, encTail, consumed) =>
      let session_key := codec.dh_key_builder.build_session_key (dh_y.take 256)
      let aes : Aes256 :=
        { key := session_key
          iv_enc := codec.iv_enc
          iv_dec := dh_y.drop (dh_y.length - AES_BLOCK_SIZE) }
      let dec := c.decryptWith aes.key aes.iv_dec encTail
      match session_created_dec dec with
      | none => .error { kind := .other, msg := "incomplete parse error" }
      | some (hash, ts_b) =>
          .ok (some (.sessionCreated { dh_y := dh_y, hash := hash, ts_b := ts_b },
            { codec with aes := some aes, state := .sessionConfirmA },
            buf.drop consumed))

/-- The connection set-up half of `OutboundHandshakeTransport::connect`
(before any I/O): generate the DH pair (the fresh builder is an explicit
parameter), compute `hxxorhb = H(dh_x) XOR H(peer_ri)`, seed the
encrypt-side IV with its last 16 bytes, and build the codec and the initial
`SessionRequest` handshake state. -/
def OutboundHandshakeTransport.connect_setup (c : CryptoModel)
    (dh_key_builder : DHSessionKeyBuilder) (own_ri : RouterIdentity)
    (own_key : Nat) (ri_remote : RouterIdentity) :
    OutboundHandshakeCodec × OBHandshakeState :=
  let dh_x := dh_key_builder.get_pub
  let hxxorhb := xorBytes (c.digest dh_x) ri_remote.hash
  let iv_enc := hxxorhb.drop AES_BLOCK_SIZE
  (OutboundHandshakeCodec.new dh_key_builder iv_enc ri_remote,
   .sessionRequest
     { own_ri := own_ri, own_key := own_key, ri_remote := ri_remote,
       dh_x := dh_x, dh_y := [], ts_a := 0, ts_b := 0 }
     hxxorhb)

/-! ### Established-session frame codec and connect timeout
(`src/transport/ntcp/mod.rs`) -/

/-- `ntcp::Frame`: an established-session frame. -/
inductive Frame
  | standard (msg : Message)
  | timeSync (ts : Nat)
deriving DecidableEq

/-- Modelled from the spec: the Adler32 trailer over the plaintext
excluding padding (the checksum implementation is external to the
transport sources), as 4 big-endian bytes. -/
def adler32 (data : List Nat) : List Nat :=
  let s := data.foldl
    (fun (p : Nat × Nat) x => ((p.1 + x) % 65521, (p.2 + p.1 + x) % 65521))
    (1, 0)
  be32 (s.2 * 65536 + s.1)

/-- Modelled from the spec: the wire form `frame::gen_frame` produces
(`ntcp/frame.rs` is absent from the transport sources) —
`[2 bytes size_hint] [payload] [zero padding] [4 bytes Adler32]`, padded so
the total is a multiple of 16; `size_hint = 0` marks a `TimeSync` frame
whose payload is the 4-byte big-endian timestamp, otherwise the payload is
the serialized `Message` of length `size_hint`. -/
def serializeFrame (f : Frame) : List Nat :=
  let body := match f with
    | .standard m => be16 m.payload.length ++ m.payload
    | .timeSync ts => be16 0 ++ be32 ts
  body ++ List.replicate ((16 - (body.length + 4) % 16) % 16) 0 ++ adler32 body

/-- `frame::gen_frame` writing into the `NTCP_MTU`-sized buffer
`Codec::encode` supplies: the serialized frame, or
`GenError::BufferTooSmall` carrying the required size when the frame does
not fit. -/
def gen_frame (f : Frame) : Except Nat (List Nat) :=
  let ser := serializeFrame f
  if NTCP_MTU < ser.length then .error ser.length else .ok ser

/-- Modelled from the spec: how many bytes `Aes256::encrypt_blocks`
processes — whole 16-byte blocks only, `none` when less than one block is
available (the cipher is external to the transport sources). -/
def encryptBlocksLen (len : Nat) : Option Nat :=
  if len < AES_BLOCK_SIZE then none else some (AES_BLOCK_SIZE * (len / AES_BLOCK_SIZE))

/-- `ntcp::Codec`: the established-session codec. -/
structure Codec where
  aes : Aes256
  decrypted : Nat

/-- `Codec::encode`: serialize the frame into the MTU-sized buffer —
failing with `InvalidData` "message (sz) larger than MTU (16384)" when it
does not fit — truncate the buffer to the written size, and encrypt it in
place with the session AES state (the whole buffer must be processed, else
`InvalidData` "invalid serialization"). -/
def Codec.encode (c : CryptoModel) (codec : Codec) (frame : Frame) :
    Except IoError (List Nat) :=
  match gen_frame frame with
  | .ok ser =>
      match encryptBlocksLen ser.length with
      | some processed =>
          if processed = ser.length
          then .ok (c.encryptWith codec.aes.key codec.aes.iv_enc ser)
          else .error { kind := .invalidData, msg := "invalid serialization" }
      | none => .error { kind := .invalidData, msg := "invalid serialization" }
  | .error sz =>
      .error { kind := .invalidData,
               msg := "message (" ++ toString sz ++ ") larger than MTU ("
                 ++ toString NTCP_MTU ++ ")" }

/-- The handshake timeout `Engine::connect` arms:
`Timeout::new(Duration::new(10, 0))`. -/
def NTCP_HANDSHAKE_TIMEOUT_SECS : Nat := 10

/-- The `then` closure of `Engine::connect` over the outcome of
`transport.map(Ok).select(timeout.map(Err))`: the select yields either the
first-completed item (`.ok (.ok conn)` when the handshake won, or
`.ok (.error ())` when the 10-second timer won) or the error of whichever
future failed.  A timer win aborts with the `"timeout during handshake"`
io error and the partially-built transport is dropped — no session value
exists on that path. -/
def Engine.connect_resolve {Conn : Type}
    (res : Except IoError (Except Unit Conn)) : Except IoError Conn :=
  match res with
  | .ok (.ok conn) => .ok conn
  | .ok (.error ()) => .error { kind := .other, msg := "timeout during handshake" }
  | .error e => .error e

/-- Decidable equality for `Except`, used to evaluate results on concrete
inputs. -/
instance {ε α : Type} [DecidableEq ε] [DecidableEq α] : DecidableEq (Except ε α)
  | .error e, .error f =>
      if h : e = f then .isTrue (h ▸ rfl)
      else .isFalse (fun hh => h (by injection hh))
  | .error _, .ok _ => .isFalse (fun h => Except.noConfusion h)
  | .ok _, .error _ => .isFalse (fun h => Except.noConfusion h)
  | .ok a, .ok b =>
      if h : a = b then .isTrue (h ▸ rfl)
      else .isFalse (fun hh => h (by injection hh))

/-! ### Concrete sample values used to instantiate the theorems -/

/-- A sample router identity. -/
def wRI : RouterIdentity :=
  { hash := List.replicate 32 3, serialized := List.replicate 387 4, signing_key := 0 }

/-- A second sample router identity (the remote peer). -/
def wRI2 : RouterIdentity :=
  { hash := List.replicate 32 5, serialized := List.replicate 387 6, signing_key := 1 }

/-- A sample crypto model: a constant digest, a constant signature, a
verifier that always rejects, and identity block ciphers. -/
def wCrypto : CryptoModel :=
  { digest := fun _ => List.replicate 32 0
    sign := fun _ _ => [1]
    verify := fun _ _ _ => false
    decryptWith := fun _ _ d => d
    encryptWith := fun _ _ d => d }

/-- A sample shared handshake state as it stands while the outbound side
waits for message 2 (`dh_y` still empty). -/
def wShared : SharedHandshakeState :=
  { own_ri := wRI, own_key := 0, ri_remote := wRI2,
    dh_x := List.replicate 256 1, dh_y := [], ts_a := 0, ts_b := 0 }

/-- A sample message 2 whose hash field does not match the digest. -/
def wSC : SessionCreated :=
  { dh_y := List.replicate 256 2, hash := List.replicate 32 9, ts_b := 7 }

/-- A sample inbound codec whose constructor-supplied encrypt IV is sixteen
`7` bytes. -/
def wIBCodec : InboundHandshakeCodec :=
  InboundHandshakeCodec.new { dh_priv := 0, dh_pub := 0 } (List.replicate 16 7)

/-- A sample wire buffer holding exactly one message 1: 256 bytes `dh_x`
(ones) followed by a 32-byte hash field (sixteen `4` bytes then sixteen
`8` bytes). -/
def wMsg1Buf : List Nat :=
  List.replicate 256 1 ++ (List.replicate 16 4 ++ List.replicate 16 8)

/-- The frame `wMsg1Buf` parses to. -/
def wIBFrame : HandshakeFrame :=
  .sessionRequest
    { dh_x := List.replicate 256 1, hash := List.replicate 16 4 ++ List.replicate 16 8 }

/-- The inbound codec state after decoding `wMsg1Buf`. -/
def wIBCodecAfter : InboundHandshakeCodec :=
  { wIBCodec with
    dh_x := List.replicate 256 1
    iv_dec := List.replicate 16 8
    state := .sessionCreated }

/-- A message whose serialized frame exceeds the MTU. -/
def wBigMsg : Message := { payload := List.replicate 16384 0, ntcp2_size := 0 }

/-- A sample established-session codec. -/
def wCodec : Codec :=
  { aes := { key := List.replicate 32 1, iv_enc := List.replicate 16 2,
             iv_dec := List.replicate 16 3 }
    decrypted := 0 }

/-! ### Correctness of the fuel-driven arithmetic helpers -/

theorem powModAux_correct :
    ∀ (f b e p acc : Nat), 0 < p → acc < p → e < 2 ^ f →
      powModAux f b e p acc = acc * b ^ e % p := by
  intro f
  induction f with
  | zero =>
      intro b e p acc hp hacc he
      have he0 : e = 0 := by simpa using Nat.lt_one_iff.mp (by simpa using he)
      subst he0
      simp [powModAux, Nat.mod_eq_of_lt hacc]
  | succ f ih =>
      intro b e p acc hp hacc he
      by_cases h0 : e = 0
      · subst h0
        simp [powModAux, Nat.mod_eq_of_lt hacc]
      · have hpow : 2 ^ (f + 1) = 2 ^ f * 2 := by rw [pow_succ]
        have he2 : e / 2 < 2 ^ f := by
          rw [Nat.div_lt_iff_lt_mul (by norm_num)]
          omega
        have hacc' : (if e % 2 = 1 then acc * b % p else acc) < p := by
          split
          · exact Nat.mod_lt _ hp
          · exact hacc
        have hrec := ih (b * b % p) (e / 2) p _ hp hacc' he2
        simp only [powModAux, if_neg h0]
        rw [hrec]
        by_cases hodd : e % 2 = 1
        · simp only [if_pos hodd]
          have hL : (acc * b % p) * ((b * b % p) ^ (e / 2)) % p
              = (acc * b) * ((b * b) ^ (e / 2)) % p :=
            (Nat.mod_modEq (acc * b) p).mul ((Nat.mod_modEq (b * b) p).pow (e / 2))
          rw [hL]
          congr 1
          obtain ⟨k, hk⟩ : ∃ k, e = 2 * k + 1 := ⟨e / 2, by omega⟩
          rw [show e / 2 = k by omega, hk]
          ring
        · simp only [if_neg hodd]
          have hL : acc * ((b * b % p) ^ (e / 2)) % p
              = acc * ((b * b) ^ (e / 2)) % p :=
            (Nat.ModEq.refl acc).mul ((Nat.mod_modEq (b * b) p).pow (e / 2))
          rw [hL]
          congr 1
          obtain ⟨k, hk⟩ : ∃ k, e = 2 * k := ⟨e / 2, by omega⟩
          rw [show e / 2 = k by omega, hk]
          ring

theorem powMod_correct (b e p : Nat) (hp : 0 < p) (he : e < 2 ^ 4096) :
    powMod b e p = b ^ e % p := by
  unfold powMod
  rw [if_neg (Nat.pos_iff_ne_zero.mp hp)]
  rw [powModAux_correct 4096 (b % p) e p (1 % p) hp (Nat.mod_lt _ hp) he]
  have hL : (1 % p) * ((b % p) ^ e) % p = 1 * (b ^ e) % p :=
    (Nat.mod_modEq 1 p).mul ((Nat.mod_modEq b p).pow e)
  rw [hL, one_mul]


theorem pow2_256_eq : (2 : Nat) ^ 256 = 115792089237316195423570985008687907853269984665640564039457584007913129639936 := by decide

theorem pow2_4096_eq : (2 : Nat) ^ 4096 = 1044388881413152506691752710716624382579964249047383780384233483283953907971557456848826811934997558340890106714439262837987573438185793607263236087851365277945956976543709998340361590134383718314428070011855946226376318839397712745672334684344586617496807908705803704071284048740118609114467977783598029006686938976881787785946905630190260940599579453432823469303026696443059025015972399867714215541693835559885291486318237914434496734087811872639496475100189041349008417061675093668333850551032972088269550769983616369411933015213796825837188091833656751221318492846368125550225998300412344784862595674492194617023806505913245610825731835380087608622102834270197698202313169017678006675195485079921636419370285375124784014907159135459982790513399611551794271106831134090584272884279791554849782954323534517065223269061394905987693002122963395687782878948440616007412945674919823050571642377154816321380631045902916136926708342856440730447899971901781465763473223850267253059899795996090799469201774624817718449867455659250178329070473119433165550807568221846571746373296884912819520317457002440926616910874148385078411929804522981857338977648103126085903001302413467189726673216491511131602920781738033436090243804708340403154190336 := by
  rw [show (4096 : Nat) = 256 * 16 from rfl, pow_mul, pow2_256_eq]
  decide

/-- One 256-bit Horner step for evaluating a large modular power through
`powMod` computations the kernel can check chunk by chunk. -/
theorem powMod_chunkStep (b p hi d r R P Q : Nat) (hp : 0 < p)
    (hd : d < 2 ^ 256)
    (hr : b ^ hi % p = r)
    (hR : powMod r (2 ^ 256) p = R)
    (hP : powMod b d p = P)
    (hQ : R * P % p = Q) :
    b ^ (hi * 2 ^ 256 + d) % p = Q := by
  subst hQ
  have h256 : (2 : Nat) ^ 256 < 2 ^ 4096 :=
    Nat.pow_lt_pow_right (by norm_num) (by norm_num)
  rw [powMod_correct r _ p hp h256] at hR
  rw [powMod_correct b d p hp (lt_trans hd h256)] at hP
  subst hR
  subst hP
  rw [pow_add, pow_mul, Nat.mul_mod, Nat.pow_mod, hr]

theorem natToBytesBEAux_bytes_lt :
    ∀ (fuel n : Nat) (acc : List Nat), (∀ x ∈ acc, x < 256) →
      ∀ x ∈ natToBytesBEAux fuel n acc, x < 256 := by
  intro fuel
  induction fuel with
  | zero => intro n acc hacc; simpa [natToBytesBEAux] using hacc
  | succ fuel ih =>
      intro n acc hacc x hx
      simp only [natToBytesBEAux] at hx
      split at hx
      · exact hacc x hx
      · refine ih (n / 256) (n % 256 :: acc) ?_ x hx
        intro y hy
        rcases List.mem_cons.mp hy with h | h
        · subst h; exact Nat.mod_lt _ (by norm_num)
        · exact hacc y h

theorem natToBytesBE_bytes_lt (n : Nat) : ∀ x ∈ natToBytesBE n, x < 256 := by
  unfold natToBytesBE
  split
  · simp
  · exact natToBytesBEAux_bytes_lt 260 n [] (by simp)

theorem natToBytesBEAux_length :
    ∀ (fuel k n : Nat) (acc : List Nat), n < 256 ^ k → k ≤ fuel →
      (natToBytesBEAux fuel n acc).length ≤ k + acc.length := by
  intro fuel
  induction fuel with
  | zero =>
      intro k n acc hn hk
      simp [natToBytesBEAux]
  | succ fuel ih =>
      intro k n acc hn hk
      simp only [natToBytesBEAux]
      split
      · omega
      · rename_i hn0
        have hk1 : 1 ≤ k := by
          by_contra h
          have : k = 0 := by omega
          subst this
          simp at hn
          omega
        have hdiv : n / 256 < 256 ^ (k - 1) := by
          rw [Nat.div_lt_iff_lt_mul (by norm_num)]
          calc n < 256 ^ k := hn
            _ = 256 ^ (k - 1) * 256 := by
                rw [← pow_succ]
                congr 1
                omega
        have := ih (k - 1) (n / 256) (n % 256 :: acc) hdiv (by omega)
        simp only [List.length_cons] at this
        omega

theorem natToBytesBE_length (n k : Nat) (h1 : 1 ≤ k) (hk : k ≤ 260)
    (hn : n < 256 ^ k) : (natToBytesBE n).length ≤ k := by
  unfold natToBytesBE
  split
  · simpa using h1
  · simpa using natToBytesBEAux_length 260 k n [] hn hk

theorem fromBytesBE_append (l1 l2 : List Nat) :
    fromBytesBE (l1 ++ l2) =
      List.foldl (fun acc b => acc * 256 + b) (fromBytesBE l1) l2 := by
  unfold fromBytesBE
  rw [List.foldl_append]

theorem foldl_byte_shift :
    ∀ (l : List Nat) (a : Nat),
      List.foldl (fun acc b => acc * 256 + b) a l =
        a * 256 ^ l.length + List.foldl (fun acc b => acc * 256 + b) 0 l := by
  intro l
  induction l with
  | nil => simp
  | cons x xs ih =>
      intro a
      simp only [List.foldl_cons, List.length_cons]
      rw [ih (a * 256 + x), ih (0 * 256 + x)]
      ring

theorem fromBytesBE_natToBytesBEAux :
    ∀ (fuel n : Nat) (acc : List Nat), n < 256 ^ fuel →
      fromBytesBE (natToBytesBEAux fuel n acc) =
        List.foldl (fun a b => a * 256 + b) n acc := by
  intro fuel
  induction fuel with
  | zero =>
      intro n acc hn
      have : n = 0 := by simpa using hn
      subst this
      simp [natToBytesBEAux, fromBytesBE]
  | succ fuel ih =>
      intro n acc hn
      simp only [natToBytesBEAux]
      split
      · rename_i h0
        subst h0
        rfl
      · have hdiv : n / 256 < 256 ^ fuel := by
          rw [Nat.div_lt_iff_lt_mul (by norm_num)]
          calc n < 256 ^ (fuel + 1) := hn
            _ = 256 ^ fuel * 256 := by rw [pow_succ]
        rw [ih (n / 256) (n % 256 :: acc) hdiv]
        simp only [List.foldl_cons]
        congr 2
        omega

theorem fromBytesBE_natToBytesBE (n : Nat) (hn : n < 256 ^ 260) :
    fromBytesBE (natToBytesBE n) = n := by
  unfold natToBytesBE
  split
  · rename_i h0; subst h0; rfl
  · simpa using fromBytesBE_natToBytesBEAux 260 n [] hn

theorem fromBytesBE_replicate_zero_append (k : Nat) (l : List Nat) :
    fromBytesBE (List.replicate k 0 ++ l) = fromBytesBE l := by
  rw [fromBytesBE_append, foldl_byte_shift]
  have : fromBytesBE (List.replicate k 0) = 0 := by
    induction k with
    | zero => rfl
    | succ k ih =>
        rw [List.replicate_succ]
        unfold fromBytesBE at ih ⊢
        simpa using ih
  rw [this]
  simp [fromBytesBE]

/-! ### The two DH test vectors of `transport::tests::build_session_key`
(`src/transport/mod.rs`), verified through 256-bit Horner chunks so that the
kernel can evaluate each modular power. -/

def tvPriv1 : Nat :=
  0xd100bf922e965504bc6e2e6d8ab968d9883890b765ef673c54479e8b570a815780092340a8e6178fc7fb97323016a6c44f9537925c32c30c7bc9117f7078a21496853c449d7aac7b124ccb9aab14cf3b67d2eda3e6251b6d6a48ad72fbd466b2b331c9a26f269df48e7dc94417546f7ab20e39b857cc7a0ac572c30ebfd06ea62e63e7d5c921eab6a9b8fc02f31b41035cf8850a6de31d0753785a9f20a7de4d8e2ccfb979c62e0b056244437e7149cb0b6d65bdf7b4ade91045d4321f173603c314fa4f541f6e0addf730020d7f19a30c61bb4d5148323916f52d21cc7659166e7141b561877053eca28eaf0d221d22907d6e78539797ef1d29e4c9b61169e0

def tvPriv2 : Nat :=
  0x67e14314d5fbc50699a9e30fe59ac5de7a4ef8a330de7f2882792fe1cd5f693eb49c0225940a61ee768f1544fedc125f52f31fd287f4cf685a848ccfc6bb23fc8cf7d52cd47a271ea920a56ec6b46b645cded831dafe34dc852d82157a3d093cb5abe447e4eeef994a811a96d43317658a78a68332013cdabffb5ba4060d103bc64514ffb47bde972bb72a507b39854afa4f8b58125dcf3e9c39f14bd9b67fa9b8b1289686cc56bb9b1c8b649afd2bebf64aea9d4d73b96868871f9a694e416c2f5e02170eb971758aea1b9e93eed7c35b8e16f6054d124468da3e0b5b80fa669f0a70417fd2b29db20aed5518de8f33b064d4a2a28fe3783d94bc773f6fb6bb

def tvPub1 : List Nat := [
  235, 132, 120, 30, 226, 44, 7, 190, 222, 103, 206, 131, 137, 235, 52, 1,
  146, 175, 37, 149, 46, 108, 53, 53, 33, 127, 199, 96, 217, 89, 13, 17,
  23, 112, 189, 184, 53, 121, 3, 74, 101, 91, 184, 242, 3, 214, 144, 65,
  247, 32, 124, 87, 226, 165, 70, 176, 195, 253, 117, 94, 78, 249, 127, 110,
  118, 241, 7, 166, 214, 205, 108, 169, 66, 197, 196, 9, 208, 206, 85, 60,
  83, 160, 216, 192, 201, 102, 159, 206, 227, 216, 184, 232, 146, 51, 98, 114,
  133, 217, 108, 7, 17, 82, 109, 138, 128, 146, 225, 55, 226, 67, 1, 82,
  201, 148, 172, 112, 241, 116, 70, 222, 31, 34, 119, 86, 94, 140, 240, 78,
  184, 203, 242, 68, 22, 200, 60, 80, 158, 37, 182, 97, 47, 79, 22, 137,
  229, 208, 159, 11, 41, 6, 1, 12, 36, 55, 153, 93, 212, 248, 123, 79,
  146, 243, 153, 141, 164, 118, 179, 155, 223, 187, 52, 127, 91, 127, 62, 114,
  76, 193, 32, 139, 133, 112, 191, 206, 13, 231, 63, 64, 81, 61, 194, 128,
  203, 54, 37, 82, 84, 116, 187, 66, 31, 63, 214, 80, 96, 60, 46, 159,
  131, 208, 157, 0, 130, 97, 64, 146, 217, 155, 94, 31, 162, 160, 255, 131,
  153, 56, 47, 241, 238, 227, 158, 106, 153, 65, 238, 159, 32, 209, 218, 47,
  127, 223, 195, 136, 98, 73, 38, 178, 89, 243, 126, 48, 62, 118, 127, 131]

def tvPeer1 : List Nat := [
  0, 0, 0, 0, 0, 0, 0, 0, 8, 28, 125, 105, 104, 80, 84, 58,
  61, 48, 86, 168, 164, 249, 50, 24, 31, 243, 121, 182, 152, 115, 178, 123,
  129, 76, 88, 25, 17, 219, 54, 154, 213, 179, 160, 157, 46, 16, 161, 182,
  236, 166, 157, 122, 141, 60, 237, 16, 34, 147, 217, 15, 255, 77, 101, 251,
  57, 222, 151, 170, 65, 86, 42, 58, 2, 40, 90, 40, 149, 187, 163, 155,
  41, 71, 155, 16, 227, 186, 200, 158, 103, 187, 60, 41, 126, 138, 23, 80,
  40, 68, 103, 195, 45, 167, 92, 77, 29, 117, 163, 171, 105, 140, 10, 237,
  56, 89, 182, 166, 165, 229, 133, 2, 72, 7, 136, 220, 195, 138, 69, 8,
  91, 26, 93, 34, 53, 33, 183, 146, 198, 62, 73, 52, 140, 166, 121, 242,
  130, 64, 56, 90, 8, 94, 147, 145, 158, 139, 96, 183, 101, 58, 0, 162,
  89, 36, 94, 150, 203, 33, 46, 71, 187, 71, 46, 5, 22, 193, 81, 61,
  178, 126, 229, 112, 219, 244, 154, 77, 43, 191, 38, 248, 67, 62, 95, 152,
  128, 200, 161, 131, 111, 63, 31, 251, 11, 108, 216, 168, 172, 119, 129, 87,
  79, 39, 220, 150, 171, 199, 31, 1, 69, 112, 77, 172, 208, 188, 82, 0,
  147, 254, 22, 174, 90, 197, 42, 100, 2, 73, 49, 212, 136, 216, 92, 116,
  7, 216, 239, 134, 26, 34, 203, 32, 162, 124, 227, 124, 32, 217, 63, 23]

def tvKey1 : List Nat := [
  17, 40, 148, 59, 203, 136, 59, 94, 29, 245, 218, 176, 206, 249, 166, 29,
  130, 164, 237, 105, 16, 53, 202, 249, 233, 89, 47, 51, 50, 252, 13, 217]

def tvPub2 : List Nat := [
  89, 0, 92, 127, 34, 75, 65, 143, 184, 145, 231, 173, 49, 86, 192, 31,
  188, 94, 42, 176, 58, 241, 86, 58, 123, 40, 23, 146, 77, 80, 223, 193,
  216, 56, 132, 36, 229, 130, 150, 26, 179, 96, 205, 245, 236, 202, 26, 207,
  102, 152, 49, 211, 70, 78, 88, 63, 210, 189, 152, 143, 107, 7, 32, 54,
  199, 206, 198, 79, 123, 204, 119, 226, 6, 149, 44, 132, 246, 101, 15, 13,
  1, 201, 102, 171, 228, 124, 8, 163, 156, 190, 130, 40, 43, 200, 125, 137,
  42, 186, 152, 14, 76, 40, 229, 15, 129, 50, 19, 185, 49, 79, 5, 144,
  123, 139, 35, 200, 241, 42, 44, 196, 147, 207, 189, 226, 30, 145, 159, 178,
  132, 138, 178, 231, 79, 36, 17, 64, 25, 132, 127, 21, 218, 246, 142, 218,
  76, 134, 19, 96, 120, 223, 183, 228, 70, 23, 136, 247, 4, 73, 243, 242,
  154, 11, 213, 132, 123, 202, 171, 93, 7, 90, 136, 58, 238, 193, 180, 203,
  188, 85, 111, 133, 196, 15, 167, 170, 78, 227, 41, 177, 16, 14, 0, 214,
  21, 5, 11, 68, 132, 86, 41, 60, 67, 175, 54, 73, 28, 189, 217, 120,
  13, 159, 104, 184, 98, 144, 183, 185, 129, 23, 254, 89, 113, 136, 23, 11,
  65, 8, 228, 77, 250, 151, 240, 95, 151, 1, 3, 165, 42, 13, 195, 12,
  142, 228, 167, 182, 171, 171, 230, 73, 6, 56, 78, 236, 62, 248, 47, 253]

def tvPeer2 : List Nat := [
  209, 47, 125, 72, 234, 133, 211, 108, 50, 133, 118, 249, 243, 104, 33, 17,
  23, 55, 59, 25, 196, 177, 178, 12, 164, 35, 169, 154, 251, 164, 161, 231,
  195, 183, 173, 38, 162, 237, 196, 61, 200, 195, 7, 230, 129, 54, 89, 57,
  209, 227, 240, 212, 118, 238, 254, 28, 176, 49, 254, 247, 232, 79, 87, 216,
  60, 162, 132, 140, 5, 224, 12, 29, 48, 184, 85, 220, 114, 52, 3, 70,
  35, 118, 146, 107, 62, 127, 35, 125, 149, 87, 104, 13, 223, 57, 230, 67,
  119, 55, 184, 11, 105, 195, 81, 233, 144, 178, 206, 24, 208, 205, 33, 155,
  79, 224, 60, 172, 109, 145, 167, 7, 8, 235, 22, 32, 105, 183, 87, 35,
  22, 186, 188, 17, 34, 82, 188, 0, 93, 98, 10, 174, 221, 195, 237, 122,
  180, 177, 163, 209, 50, 180, 57, 27, 110, 194, 194, 151, 250, 114, 183, 39,
  98, 61, 236, 165, 144, 214, 43, 237, 6, 133, 68, 53, 155, 147, 203, 204,
  192, 109, 68, 71, 65, 3, 202, 2, 39, 207, 64, 175, 95, 228, 4, 155,
  214, 128, 244, 134, 26, 242, 142, 28, 44, 34, 48, 29, 199, 215, 84, 100,
  242, 62, 76, 205, 155, 45, 138, 5, 78, 47, 192, 20, 185, 244, 64, 228,
  144, 249, 19, 14, 221, 200, 144, 150, 169, 141, 81, 156, 82, 61, 221, 185,
  92, 76, 188, 52, 79, 129, 79, 194, 17, 50, 237, 29, 145, 167, 13, 7]

def tvKey2 : List Nat := [
  0, 174, 69, 99, 165, 98, 202, 104, 136, 147, 246, 164, 246, 185, 185, 125,
  209, 107, 254, 162, 202, 43, 100, 161, 8, 207, 125, 234, 230, 35, 79, 121]

theorem pow2_2048_eq : (2 : Nat) ^ 2048 = 32317006071311007300714876688669951960444102669715484032130345427524655138867890893197201411522913463688717960921898019494119559150490921095088152386448283120630877367300996091750197750389652106796057638384067568276792218642619756161838094338476170470581645852036305042887575891541065808607552399123930385521914333389668342420684974786564569494856176035326322058077805659331026192708460314150258592864177116725943603718461857357598351152301645904403697613233287231227125684710820209725157101726931323469678542580656697935045997268352998638215525166389437335543602135433229604645318478604952148193555853611059596230656 := by
  rw [show (2048 : Nat) = 256 * 8 from rfl, pow_mul, pow2_256_eq]
  decide

theorem tv1_p0 : powMod 55508729552916152280941439096997193935364245042622243772337853586965690997705265313128575064762014625769443034346824371847566741729540002362414111556397894164135495701232581928417000528595742761671596943874998321873313668362845870333161082910938775838934472430629659757588845410685033390722955642804011793424369437644257818346807576145408460881758916099193853291832248845029614058931044772132612312130054247316243851914963964337494646505440113377389968174067747070891414375270849861140942938320376958400735170992478490174412886325499511371656414608587964531905687422862347440010582325714979733271 94534707528513334028817204174415176475036743753584585603377581636308303511895 elg_p = 10364768825658149188788427246156880765111214158972120842532280287320938276733668135085012516923418250076261137015784260422431934099350862898864553964004232656045957085315363015893049616449380054314371831244783801034126665975118140013538710358550654898676201947568239824632982254651065441723945651789507366067081143063394119411441504252743003481056773805173350299945657973740562877928750953333329781285046434715253223999980959230376655577840531994361078538310362190691903099037804635272782815158395278646706740526242506767281611057219302950650104970433025758586844629884014300107637477156231430091461576497608126337556 := by decide

theorem tv1_sq1 : powMod 10364768825658149188788427246156880765111214158972120842532280287320938276733668135085012516923418250076261137015784260422431934099350862898864553964004232656045957085315363015893049616449380054314371831244783801034126665975118140013538710358550654898676201947568239824632982254651065441723945651789507366067081143063394119411441504252743003481056773805173350299945657973740562877928750953333329781285046434715253223999980959230376655577840531994361078538310362190691903099037804635272782815158395278646706740526242506767281611057219302950650104970433025758586844629884014300107637477156231430091461576497608126337556 (2 ^ 256) elg_p = 28394886026110974492795582856540619024461533705553290403035235301853678877847168288190515403429641413243113932122058387282875529111931563959785104026109372368869476129675478493266910262202051069545014193812220487530231467288032670957231922658548209231552734151371199126699923675651027689924790050244479975106588179366780725760987728304442978088009335463783360274600643327657858287016332682490039168611212593667019366071279507068633258095173506861416160854136760414516711139635697453631510629033361840906130665848524130748699056834413060529049596864933001885997371858515689173425255091799477994632473346973615405088933 := by decide

theorem tv1_mu1 : powMod 55508729552916152280941439096997193935364245042622243772337853586965690997705265313128575064762014625769443034346824371847566741729540002362414111556397894164135495701232581928417000528595742761671596943874998321873313668362845870333161082910938775838934472430629659757588845410685033390722955642804011793424369437644257818346807576145408460881758916099193853291832248845029614058931044772132612312130054247316243851914963964337494646505440113377389968174067747070891414375270849861140942938320376958400735170992478490174412886325499511371656414608587964531905687422862347440010582325714979733271 57912189546586946912592955481811846518165660084395101311572315632424193663508 elg_p = 30774063376824522150170617496224289958140579410051683653623253828806229041679155506170094959677986033617041396879847698635280400930195890251063163813055823549466036281401978274980278545854297348458310095209980662684816872861343686014179029110939410906433899950713582193908459387431724072647391492273140696176610546317952495777891511044463409242160820104244070964352786931700089181153886693746082180871297826787886981627144637371267074934313270517927408699685884992381235073028913915850115569949008467073714832139545613426439926608466091160113830899328576283295118064024849738578886333918771554542450278000563688612584 := by decide

theorem tv1_h1 : (55508729552916152280941439096997193935364245042622243772337853586965690997705265313128575064762014625769443034346824371847566741729540002362414111556397894164135495701232581928417000528595742761671596943874998321873313668362845870333161082910938775838934472430629659757588845410685033390722955642804011793424369437644257818346807576145408460881758916099193853291832248845029614058931044772132612312130054247316243851914963964337494646505440113377389968174067747070891414375270849861140942938320376958400735170992478490174412886325499511371656414608587964531905687422862347440010582325714979733271 : Nat) ^ 10946371290165203137698327894338590190722160636925328317492883648243710338553736346907484412880769716586433160963244952997520251478578305469001109836702228 % elg_p = 5265325911336824501021693549197327150130735996155286034865232280171113542177128981423705768413990360718800419433271425669572368322630903123941876165969964746055470174203497430096678401181149628012960097714800525455464623448549185387490179096319264419202231329610039822679567847117710657024557713361910658629938379802896433133485207061582446479254011949166462218197330993135125473970246949342536014631955324712079786484454433233907141696465858049877594132868268069043709632667887699044452777149917347656144637192358158610540872392588526593765969731097413285834917149347523883068459493047089320696285884940784960320847 := by
  have step := powMod_chunkStep 55508729552916152280941439096997193935364245042622243772337853586965690997705265313128575064762014625769443034346824371847566741729540002362414111556397894164135495701232581928417000528595742761671596943874998321873313668362845870333161082910938775838934472430629659757588845410685033390722955642804011793424369437644257818346807576145408460881758916099193853291832248845029614058931044772132612312130054247316243851914963964337494646505440113377389968174067747070891414375270849861140942938320376958400735170992478490174412886325499511371656414608587964531905687422862347440010582325714979733271 elg_p 94534707528513334028817204174415176475036743753584585603377581636308303511895 57912189546586946912592955481811846518165660084395101311572315632424193663508 10364768825658149188788427246156880765111214158972120842532280287320938276733668135085012516923418250076261137015784260422431934099350862898864553964004232656045957085315363015893049616449380054314371831244783801034126665975118140013538710358550654898676201947568239824632982254651065441723945651789507366067081143063394119411441504252743003481056773805173350299945657973740562877928750953333329781285046434715253223999980959230376655577840531994361078538310362190691903099037804635272782815158395278646706740526242506767281611057219302950650104970433025758586844629884014300107637477156231430091461576497608126337556 28394886026110974492795582856540619024461533705553290403035235301853678877847168288190515403429641413243113932122058387282875529111931563959785104026109372368869476129675478493266910262202051069545014193812220487530231467288032670957231922658548209231552734151371199126699923675651027689924790050244479975106588179366780725760987728304442978088009335463783360274600643327657858287016332682490039168611212593667019366071279507068633258095173506861416160854136760414516711139635697453631510629033361840906130665848524130748699056834413060529049596864933001885997371858515689173425255091799477994632473346973615405088933 30774063376824522150170617496224289958140579410051683653623253828806229041679155506170094959677986033617041396879847698635280400930195890251063163813055823549466036281401978274980278545854297348458310095209980662684816872861343686014179029110939410906433899950713582193908459387431724072647391492273140696176610546317952495777891511044463409242160820104244070964352786931700089181153886693746082180871297826787886981627144637371267074934313270517927408699685884992381235073028913915850115569949008467073714832139545613426439926608466091160113830899328576283295118064024849738578886333918771554542450278000563688612584 5265325911336824501021693549197327150130735996155286034865232280171113542177128981423705768413990360718800419433271425669572368322630903123941876165969964746055470174203497430096678401181149628012960097714800525455464623448549185387490179096319264419202231329610039822679567847117710657024557713361910658629938379802896433133485207061582446479254011949166462218197330993135125473970246949342536014631955324712079786484454433233907141696465858049877594132868268069043709632667887699044452777149917347656144637192358158610540872392588526593765969731097413285834917149347523883068459493047089320696285884940784960320847
    (by decide) (by decide)
    ((powMod_correct 55508729552916152280941439096997193935364245042622243772337853586965690997705265313128575064762014625769443034346824371847566741729540002362414111556397894164135495701232581928417000528595742761671596943874998321873313668362845870333161082910938775838934472430629659757588845410685033390722955642804011793424369437644257818346807576145408460881758916099193853291832248845029614058931044772132612312130054247316243851914963964337494646505440113377389968174067747070891414375270849861140942938320376958400735170992478490174412886325499511371656414608587964531905687422862347440010582325714979733271 94534707528513334028817204174415176475036743753584585603377581636308303511895 elg_p (by decide) (by rw [pow2_4096_eq]; decide)).symm.trans tv1_p0)
    tv1_sq1 tv1_mu1 (by decide)
  have harg : (94534707528513334028817204174415176475036743753584585603377581636308303511895 : Nat) * 2 ^ 256 + 57912189546586946912592955481811846518165660084395101311572315632424193663508 = 10946371290165203137698327894338590190722160636925328317492883648243710338553736346907484412880769716586433160963244952997520251478578305469001109836702228 := by decide
  rw [harg] at step
  exact step

theorem tv1_sq2 : powMod 5265325911336824501021693549197327150130735996155286034865232280171113542177128981423705768413990360718800419433271425669572368322630903123941876165969964746055470174203497430096678401181149628012960097714800525455464623448549185387490179096319264419202231329610039822679567847117710657024557713361910658629938379802896433133485207061582446479254011949166462218197330993135125473970246949342536014631955324712079786484454433233907141696465858049877594132868268069043709632667887699044452777149917347656144637192358158610540872392588526593765969731097413285834917149347523883068459493047089320696285884940784960320847 (2 ^ 256) elg_p = 31003518458995547242824152613127508877028916516418011859414893162212574087825648087059492091182295459904812315137192310162571015425330079979416392579929535955084086674565031174823943709266000220463209630764755334016615877366498369952947601565032274225673043657926273447065331745901432350692942253119733688639778012916449237561539350616185042659429153878016007308780615562368093802548471117399135949567267392470834494197497644712276641468460027648894974876214266762947894013448444125663017693286613826936558803819577729858244829123047281901256463038673713554650840760915853717565824948893720903327699190962091736411907 := by decide

theorem tv1_mu2 : powMod 55508729552916152280941439096997193935364245042622243772337853586965690997705265313128575064762014625769443034346824371847566741729540002362414111556397894164135495701232581928417000528595742761671596943874998321873313668362845870333161082910938775838934472430629659757588845410685033390722955642804011793424369437644257818346807576145408460881758916099193853291832248845029614058931044772132612312130054247316243851914963964337494646505440113377389968174067747070891414375270849861140942938320376958400735170992478490174412886325499511371656414608587964531905687422862347440010582325714979733271 68082333901747159018741570060537157198707717755446341671126462916057736963762 elg_p = 30849280985642358563826943266294333483801354010732732446607492337113571043405850592424758521575331844910927401382038186628795210424627035956258577064873827326484508565410683817776839197615387867425813466254271754847203807324179939055764520877588825635225339499112168597103062396335236205636470714239370832730961291096103697867199771113685032538866175114602572387178133377609545706815339775184054479385901109471304182774923597977343895291276289369531425221615457759646490101968876796422466587531357732299695750996407714211177177042567320694279785592422067819166778095312074475182375637381103570293836244904803216385267 := by decide

theorem tv1_h2 : (55508729552916152280941439096997193935364245042622243772337853586965690997705265313128575064762014625769443034346824371847566741729540002362414111556397894164135495701232581928417000528595742761671596943874998321873313668362845870333161082910938775838934472430629659757588845410685033390722955642804011793424369437644257818346807576145408460881758916099193853291832248845029614058931044772132612312130054247316243851914963964337494646505440113377389968174067747070891414375270849861140942938320376958400735170992478490174412886325499511371656414608587964531905687422862347440010582325714979733271 : Nat) ^ 1267503201255605214699256238379161836102030405927736603255787469840667685385744234200457767291125684978012797764279527025084950799462708040884540343468301019198186007715295006969910841249853525464809906870935887315302805269025941170 % elg_p = 18131289361102504141548771887431275167100410167062307923846850806539126415138930025731664484204650491152174759681282589090485664069949381345498560042998465831662935685476362422221507942274772778320566249348683829543017078403636784074541036647768081832480513838791408480692874087835250922191629629177119030241073752976315945578959679534750191325766641865357899241577834337316218131387973619795428649095739205846232586312634869941834753213649672183169171200034049124317121771854830522466138017123483064699921058286205888934574769677274622058304872112718265929100210635929078195070209218161354674090663989394277823360590 := by
  have step := powMod_chunkStep 55508729552916152280941439096997193935364245042622243772337853586965690997705265313128575064762014625769443034346824371847566741729540002362414111556397894164135495701232581928417000528595742761671596943874998321873313668362845870333161082910938775838934472430629659757588845410685033390722955642804011793424369437644257818346807576145408460881758916099193853291832248845029614058931044772132612312130054247316243851914963964337494646505440113377389968174067747070891414375270849861140942938320376958400735170992478490174412886325499511371656414608587964531905687422862347440010582325714979733271 elg_p 10946371290165203137698327894338590190722160636925328317492883648243710338553736346907484412880769716586433160963244952997520251478578305469001109836702228 68082333901747159018741570060537157198707717755446341671126462916057736963762 5265325911336824501021693549197327150130735996155286034865232280171113542177128981423705768413990360718800419433271425669572368322630903123941876165969964746055470174203497430096678401181149628012960097714800525455464623448549185387490179096319264419202231329610039822679567847117710657024557713361910658629938379802896433133485207061582446479254011949166462218197330993135125473970246949342536014631955324712079786484454433233907141696465858049877594132868268069043709632667887699044452777149917347656144637192358158610540872392588526593765969731097413285834917149347523883068459493047089320696285884940784960320847 31003518458995547242824152613127508877028916516418011859414893162212574087825648087059492091182295459904812315137192310162571015425330079979416392579929535955084086674565031174823943709266000220463209630764755334016615877366498369952947601565032274225673043657926273447065331745901432350692942253119733688639778012916449237561539350616185042659429153878016007308780615562368093802548471117399135949567267392470834494197497644712276641468460027648894974876214266762947894013448444125663017693286613826936558803819577729858244829123047281901256463038673713554650840760915853717565824948893720903327699190962091736411907 30849280985642358563826943266294333483801354010732732446607492337113571043405850592424758521575331844910927401382038186628795210424627035956258577064873827326484508565410683817776839197615387867425813466254271754847203807324179939055764520877588825635225339499112168597103062396335236205636470714239370832730961291096103697867199771113685032538866175114602572387178133377609545706815339775184054479385901109471304182774923597977343895291276289369531425221615457759646490101968876796422466587531357732299695750996407714211177177042567320694279785592422067819166778095312074475182375637381103570293836244904803216385267 18131289361102504141548771887431275167100410167062307923846850806539126415138930025731664484204650491152174759681282589090485664069949381345498560042998465831662935685476362422221507942274772778320566249348683829543017078403636784074541036647768081832480513838791408480692874087835250922191629629177119030241073752976315945578959679534750191325766641865357899241577834337316218131387973619795428649095739205846232586312634869941834753213649672183169171200034049124317121771854830522466138017123483064699921058286205888934574769677274622058304872112718265929100210635929078195070209218161354674090663989394277823360590
    (by decide) (by decide)
    tv1_h1
    tv1_sq2 tv1_mu2 (by decide)
  have harg : (10946371290165203137698327894338590190722160636925328317492883648243710338553736346907484412880769716586433160963244952997520251478578305469001109836702228 : Nat) * 2 ^ 256 + 68082333901747159018741570060537157198707717755446341671126462916057736963762 = 1267503201255605214699256238379161836102030405927736603255787469840667685385744234200457767291125684978012797764279527025084950799462708040884540343468301019198186007715295006969910841249853525464809906870935887315302805269025941170 := by decide
  rw [harg] at step
  exact step

theorem tv1_sq3 : powMod 18131289361102504141548771887431275167100410167062307923846850806539126415138930025731664484204650491152174759681282589090485664069949381345498560042998465831662935685476362422221507942274772778320566249348683829543017078403636784074541036647768081832480513838791408480692874087835250922191629629177119030241073752976315945578959679534750191325766641865357899241577834337316218131387973619795428649095739205846232586312634869941834753213649672183169171200034049124317121771854830522466138017123483064699921058286205888934574769677274622058304872112718265929100210635929078195070209218161354674090663989394277823360590 (2 ^ 256) elg_p = 19272751295356487864998863711229344296419286946943301126443861836312134046941591412366497776171184743432899910377865377524535803569642236358021046933880121847333974432184846101797240765023976181193461535181014359254819571792819633467238333442814226523573267090711712787602634197649831964745803431122217954796357431803996390317795197101072930989657490272478186082344367556520834302270793852230539155110177627527904271695025665778700924288222633821528080067122332890022988518961969436901216567926058951205593779573732624850610299343022507200266606194639956021177710072170523760833627635463218543733729366506507446419598 := by decide

theorem tv1_mu3 : powMod 55508729552916152280941439096997193935364245042622243772337853586965690997705265313128575064762014625769443034346824371847566741729540002362414111556397894164135495701232581928417000528595742761671596943874998321873313668362845870333161082910938775838934472430629659757588845410685033390722955642804011793424369437644257818346807576145408460881758916099193853291832248845029614058931044772132612312130054247316243851914963964337494646505440113377389968174067747070891414375270849861140942938320376958400735170992478490174412886325499511371656414608587964531905687422862347440010582325714979733271 81051967032811439825583576443061268441831645321633757233748491694345926241958 elg_p = 30654052583583785200865469123764028286179060983936080077314282125829917658253942721808196939005329343700949701761652552850529269021688018123427072028133831889483115797474130075221268645068314247175055014900275372336067995772704841318933116453618121114559303402652507030028124532940470061097050613653432254527671182391891295726744761650370386374427266036682103192448672304861385012201141778592016579407671521843682384847471544278452614564648308490440511920682338007953443599304674535960371061099399140262958564698402178735645199711062933749480242496691364887256955601848033698898317405560584023104967326480795893700031 := by decide

theorem tv1_h3 : (55508729552916152280941439096997193935364245042622243772337853586965690997705265313128575064762014625769443034346824371847566741729540002362414111556397894164135495701232581928417000528595742761671596943874998321873313668362845870333161082910938775838934472430629659757588845410685033390722955642804011793424369437644257818346807576145408460881758916099193853291832248845029614058931044772132612312130054247316243851914963964337494646505440113377389968174067747070891414375270849861140942938320376958400735170992478490174412886325499511371656414608587964531905687422862347440010582325714979733271 : Nat) ^ 146766843788372988178497418020292571471019234167537232864531409079811901156172406596398850893697688853561518334477223051280122594384118931327270458797371761982915026263499551812273959829055814879463357262345961950514232161270875012104046199033370782011762459937199463963661651104170066289379741158351544807078 % elg_p = 3213625679976063464062477756941828605783757644536438122684837360731729482519521756074492876457318510525938265350194944104330469961983971201997069407433569234637080174901089050539591495266406575919800223237465943598539223648125106003772897389173324882992360440207618481358464896346969435467242822803233489996806689765356303009428333669975223019551579398221917836469489276923143983743957625416982706403249628422072552906341608458901717422023491533681025669626057374451983927690504863534346522350888678105028389682414041021820412838791650405238222542414794968728675361944003859108420696890872181313441825960549888410265 := by
  have step := powMod_chunkStep 55508729552916152280941439096997193935364245042622243772337853586965690997705265313128575064762014625769443034346824371847566741729540002362414111556397894164135495701232581928417000528595742761671596943874998321873313668362845870333161082910938775838934472430629659757588845410685033390722955642804011793424369437644257818346807576145408460881758916099193853291832248845029614058931044772132612312130054247316243851914963964337494646505440113377389968174067747070891414375270849861140942938320376958400735170992478490174412886325499511371656414608587964531905687422862347440010582325714979733271 elg_p 1267503201255605214699256238379161836102030405927736603255787469840667685385744234200457767291125684978012797764279527025084950799462708040884540343468301019198186007715295006969910841249853525464809906870935887315302805269025941170 81051967032811439825583576443061268441831645321633757233748491694345926241958 18131289361102504141548771887431275167100410167062307923846850806539126415138930025731664484204650491152174759681282589090485664069949381345498560042998465831662935685476362422221507942274772778320566249348683829543017078403636784074541036647768081832480513838791408480692874087835250922191629629177119030241073752976315945578959679534750191325766641865357899241577834337316218131387973619795428649095739205846232586312634869941834753213649672183169171200034049124317121771854830522466138017123483064699921058286205888934574769677274622058304872112718265929100210635929078195070209218161354674090663989394277823360590 19272751295356487864998863711229344296419286946943301126443861836312134046941591412366497776171184743432899910377865377524535803569642236358021046933880121847333974432184846101797240765023976181193461535181014359254819571792819633467238333442814226523573267090711712787602634197649831964745803431122217954796357431803996390317795197101072930989657490272478186082344367556520834302270793852230539155110177627527904271695025665778700924288222633821528080067122332890022988518961969436901216567926058951205593779573732624850610299343022507200266606194639956021177710072170523760833627635463218543733729366506507446419598 30654052583583785200865469123764028286179060983936080077314282125829917658253942721808196939005329343700949701761652552850529269021688018123427072028133831889483115797474130075221268645068314247175055014900275372336067995772704841318933116453618121114559303402652507030028124532940470061097050613653432254527671182391891295726744761650370386374427266036682103192448672304861385012201141778592016579407671521843682384847471544278452614564648308490440511920682338007953443599304674535960371061099399140262958564698402178735645199711062933749480242496691364887256955601848033698898317405560584023104967326480795893700031 3213625679976063464062477756941828605783757644536438122684837360731729482519521756074492876457318510525938265350194944104330469961983971201997069407433569234637080174901089050539591495266406575919800223237465943598539223648125106003772897389173324882992360440207618481358464896346969435467242822803233489996806689765356303009428333669975223019551579398221917836469489276923143983743957625416982706403249628422072552906341608458901717422023491533681025669626057374451983927690504863534346522350888678105028389682414041021820412838791650405238222542414794968728675361944003859108420696890872181313441825960549888410265
    (by decide) (by decide)
    tv1_h2
    tv1_sq3 tv1_mu3 (by decide)
  have harg : (1267503201255605214699256238379161836102030405927736603255787469840667685385744234200457767291125684978012797764279527025084950799462708040884540343468301019198186007715295006969910841249853525464809906870935887315302805269025941170 : Nat) * 2 ^ 256 + 81051967032811439825583576443061268441831645321633757233748491694345926241958 = 146766843788372988178497418020292571471019234167537232864531409079811901156172406596398850893697688853561518334477223051280122594384118931327270458797371761982915026263499551812273959829055814879463357262345961950514232161270875012104046199033370782011762459937199463963661651104170066289379741158351544807078 := by decide
  rw [harg] at step
  exact step

theorem tv1_sq4 : powMod 3213625679976063464062477756941828605783757644536438122684837360731729482519521756074492876457318510525938265350194944104330469961983971201997069407433569234637080174901089050539591495266406575919800223237465943598539223648125106003772897389173324882992360440207618481358464896346969435467242822803233489996806689765356303009428333669975223019551579398221917836469489276923143983743957625416982706403249628422072552906341608458901717422023491533681025669626057374451983927690504863534346522350888678105028389682414041021820412838791650405238222542414794968728675361944003859108420696890872181313441825960549888410265 (2 ^ 256) elg_p = 9570673518160228973625512957090600704724168649708934996881231289017991939746142989678348876666354285809149918547289535992640010553003461633174990981510786263815674128066356312606303091011704436213478015089474712537156270279016517602915484989672949398403934714360419534044715078007422181082912694849901141284866904210730805683451776357863737317101280334420433005328792611373445615809467905132887186805146801309526660749481575023772314760492878752627198255685018438424200211583347924659475237018703112273565914847862400451853166347665185901946753204169929526365672203863395913358444530909922350710108244378588277587655 := by decide

theorem tv1_mu4 : powMod 55508729552916152280941439096997193935364245042622243772337853586965690997705265313128575064762014625769443034346824371847566741729540002362414111556397894164135495701232581928417000528595742761671596943874998321873313668362845870333161082910938775838934472430629659757588845410685033390722955642804011793424369437644257818346807576145408460881758916099193853291832248845029614058931044772132612312130054247316243851914963964337494646505440113377389968174067747070891414375270849861140942938320376958400735170992478490174412886325499511371656414608587964531905687422862347440010582325714979733271 20982908961299785845197184364156079302545880564652789692391802130392582446669 elg_p = 8136044074832063586730735081957970958226914840923158205624239702740609437888711070887415727991441685684857326567495991315881002568393853831609128221413206383901419647675137130833087924336455024345024256750844010027113183384061972913595659933431239170428389890590386634206278724493858387717356481527872778737900291615688439035576905908783883583835730902283659379018368984513424546143177570538775918494293613961718346340212002543959254541493966482807060455131944912019502108990945391999832143547509393929223775261695860575288741387596883051160428357839410333827303463123331178197817092871703159274323056251900505763402 := by decide

theorem tv1_h4 : (55508729552916152280941439096997193935364245042622243772337853586965690997705265313128575064762014625769443034346824371847566741729540002362414111556397894164135495701232581928417000528595742761671596943874998321873313668362845870333161082910938775838934472430629659757588845410685033390722955642804011793424369437644257818346807576145408460881758916099193853291832248845029614058931044772132612312130054247316243851914963964337494646505440113377389968174067747070891414375270849861140942938320376958400735170992478490174412886325499511371656414608587964531905687422862347440010582325714979733271 : Nat) ^ 16994439473022531194542760299034284268619547853855592747462655011797699877099305395844892380938706989667456142713839064845255670795209959670120388825945982175294544796958030484907763717714118323611740552152667191225280491557728369511768285784440777225556371234687090002832738100587471120791286124763913904148376895298687353659081273963938250044008266425737908269895610672672897306713677 % elg_p = 10453066691224649291084156774267535659585855789476823914061760711000954372474836238720423379518106510461869601703237128412409106060453165527283770552367004364841465824210290962121587173897170465955851809097289556023621935962665340182521030009679549634836383288026825435024352767818700091972740023894337925142325369316537559282572408295957707902527848281063103164381161928671559554526520400442437430527686347638416138817063912796317726300931683179368833904684106717217364025645157334072829223022657146536918724120699967834976449160044497642154752067189870556605224818589696699136056252084624781056215409814694754619158 := by
  have step := powMod_chunkStep 55508729552916152280941439096997193935364245042622243772337853586965690997705265313128575064762014625769443034346824371847566741729540002362414111556397894164135495701232581928417000528595742761671596943874998321873313668362845870333161082910938775838934472430629659757588845410685033390722955642804011793424369437644257818346807576145408460881758916099193853291832248845029614058931044772132612312130054247316243851914963964337494646505440113377389968174067747070891414375270849861140942938320376958400735170992478490174412886325499511371656414608587964531905687422862347440010582325714979733271 elg_p 146766843788372988178497418020292571471019234167537232864531409079811901156172406596398850893697688853561518334477223051280122594384118931327270458797371761982915026263499551812273959829055814879463357262345961950514232161270875012104046199033370782011762459937199463963661651104170066289379741158351544807078 20982908961299785845197184364156079302545880564652789692391802130392582446669 3213625679976063464062477756941828605783757644536438122684837360731729482519521756074492876457318510525938265350194944104330469961983971201997069407433569234637080174901089050539591495266406575919800223237465943598539223648125106003772897389173324882992360440207618481358464896346969435467242822803233489996806689765356303009428333669975223019551579398221917836469489276923143983743957625416982706403249628422072552906341608458901717422023491533681025669626057374451983927690504863534346522350888678105028389682414041021820412838791650405238222542414794968728675361944003859108420696890872181313441825960549888410265 9570673518160228973625512957090600704724168649708934996881231289017991939746142989678348876666354285809149918547289535992640010553003461633174990981510786263815674128066356312606303091011704436213478015089474712537156270279016517602915484989672949398403934714360419534044715078007422181082912694849901141284866904210730805683451776357863737317101280334420433005328792611373445615809467905132887186805146801309526660749481575023772314760492878752627198255685018438424200211583347924659475237018703112273565914847862400451853166347665185901946753204169929526365672203863395913358444530909922350710108244378588277587655 8136044074832063586730735081957970958226914840923158205624239702740609437888711070887415727991441685684857326567495991315881002568393853831609128221413206383901419647675137130833087924336455024345024256750844010027113183384061972913595659933431239170428389890590386634206278724493858387717356481527872778737900291615688439035576905908783883583835730902283659379018368984513424546143177570538775918494293613961718346340212002543959254541493966482807060455131944912019502108990945391999832143547509393929223775261695860575288741387596883051160428357839410333827303463123331178197817092871703159274323056251900505763402 10453066691224649291084156774267535659585855789476823914061760711000954372474836238720423379518106510461869601703237128412409106060453165527283770552367004364841465824210290962121587173897170465955851809097289556023621935962665340182521030009679549634836383288026825435024352767818700091972740023894337925142325369316537559282572408295957707902527848281063103164381161928671559554526520400442437430527686347638416138817063912796317726300931683179368833904684106717217364025645157334072829223022657146536918724120699967834976449160044497642154752067189870556605224818589696699136056252084624781056215409814694754619158
    (by decide) (by decide)
    tv1_h3
    tv1_sq4 tv1_mu4 (by decide)
  have harg : (146766843788372988178497418020292571471019234167537232864531409079811901156172406596398850893697688853561518334477223051280122594384118931327270458797371761982915026263499551812273959829055814879463357262345961950514232161270875012104046199033370782011762459937199463963661651104170066289379741158351544807078 : Nat) * 2 ^ 256 + 20982908961299785845197184364156079302545880564652789692391802130392582446669 = 16994439473022531194542760299034284268619547853855592747462655011797699877099305395844892380938706989667456142713839064845255670795209959670120388825945982175294544796958030484907763717714118323611740552152667191225280491557728369511768285784440777225556371234687090002832738100587471120791286124763913904148376895298687353659081273963938250044008266425737908269895610672672897306713677 := by decide
  rw [harg] at step
  exact step

theorem tv1_sq5 : powMod 10453066691224649291084156774267535659585855789476823914061760711000954372474836238720423379518106510461869601703237128412409106060453165527283770552367004364841465824210290962121587173897170465955851809097289556023621935962665340182521030009679549634836383288026825435024352767818700091972740023894337925142325369316537559282572408295957707902527848281063103164381161928671559554526520400442437430527686347638416138817063912796317726300931683179368833904684106717217364025645157334072829223022657146536918724120699967834976449160044497642154752067189870556605224818589696699136056252084624781056215409814694754619158 (2 ^ 256) elg_p = 8647133569193095349624539262721952848680309072548660531059883817636118745047684581476674100103690002479560235483901441382550891777858540469825206427481984532211089100484831829003128254961078095115941267446277267854464330978247521528663226692966679002521294362678763977624542214355828976342890485725402635387213560248924475019171424285896907480946272985561182320907138571637232604663996339070426826497646745770691489805444879964239427816942431071314899400890314033599037515917481867884293560791179016681373537747150526705539114758131138414486061502761215992094250911747785678700972789273978561731290158396404284661563 := by decide

theorem tv1_mu5 : powMod 55508729552916152280941439096997193935364245042622243772337853586965690997705265313128575064762014625769443034346824371847566741729540002362414111556397894164135495701232581928417000528595742761671596943874998321873313668362845870333161082910938775838934472430629659757588845410685033390722955642804011793424369437644257818346807576145408460881758916099193853291832248845029614058931044772132612312130054247316243851914963964337494646505440113377389968174067747070891414375270849861140942938320376958400735170992478490174412886325499511371656414608587964531905687422862347440010582325714979733271 64307599431582308884899042856161506686743307445369006934127924386004519564803 elg_p = 3263660805444857714058948816064244929236974618702871866943640093266015548273228557490731520381620303255735963948715537571058120268861352165334136183035326738054775474642336278104759616549066000732006630612891428407058164435717300579380156195990417529723959268236632958327912824346271970302713901301457234517935727771753896454741098113194395763174401544405619662135121156007101853108235734451972619668192332796243252306602123458466431759263440113891186370761956170456470456710964742187174126331848058918435801252589834899222508293101603201669499833235398066170532771633144474290842883429561523585167195324803517595576 := by decide

theorem tv1_h5 : (55508729552916152280941439096997193935364245042622243772337853586965690997705265313128575064762014625769443034346824371847566741729540002362414111556397894164135495701232581928417000528595742761671596943874998321873313668362845870333161082910938775838934472430629659757588845410685033390722955642804011793424369437644257818346807576145408460881758916099193853291832248845029614058931044772132612312130054247316243851914963964337494646505440113377389968174067747070891414375270849861140942938320376958400735170992478490174412886325499511371656414608587964531905687422862347440010582325714979733271 : Nat) ^ 1967821651998393750177635334467817686472470582361279433654006089739424726211649261296132360832458490539428884020528324113792218614268874421890369320684014917166263068845828973619402073288023460584656799669597697865442109439633419891213252442833894892146713769934875500891350277211106774675331500805347311509547891746400878199246543461837784341618741895028498092156821912261915388712271300404484299323292240484791935980582404968600590556418530923673489038976169475 % elg_p = 5690540073256562404501175848389778532413659689202285906141539576577212126873191156409796275725445553425511903687297449639291782194363322998910877172571671681562868194497606438474127337036071624468954942509940737676073253568257171658321982445857514966065351927237678007313123657079472519122979518999064735074274536326785475892802458862408811651000109238526522316503917920179626777098106484128694065975438079256717554298766888757120810719351185750339720500088905842191731374263243827070951653206777278747965048437447096105672545656687485966609754810743131544606570543088562715668498164842099673953796027797551439795606 := by
  have step := powMod_chunkStep 55508729552916152280941439096997193935364245042622243772337853586965690997705265313128575064762014625769443034346824371847566741729540002362414111556397894164135495701232581928417000528595742761671596943874998321873313668362845870333161082910938775838934472430629659757588845410685033390722955642804011793424369437644257818346807576145408460881758916099193853291832248845029614058931044772132612312130054247316243851914963964337494646505440113377389968174067747070891414375270849861140942938320376958400735170992478490174412886325499511371656414608587964531905687422862347440010582325714979733271 elg_p 16994439473022531194542760299034284268619547853855592747462655011797699877099305395844892380938706989667456142713839064845255670795209959670120388825945982175294544796958030484907763717714118323611740552152667191225280491557728369511768285784440777225556371234687090002832738100587471120791286124763913904148376895298687353659081273963938250044008266425737908269895610672672897306713677 64307599431582308884899042856161506686743307445369006934127924386004519564803 10453066691224649291084156774267535659585855789476823914061760711000954372474836238720423379518106510461869601703237128412409106060453165527283770552367004364841465824210290962121587173897170465955851809097289556023621935962665340182521030009679549634836383288026825435024352767818700091972740023894337925142325369316537559282572408295957707902527848281063103164381161928671559554526520400442437430527686347638416138817063912796317726300931683179368833904684106717217364025645157334072829223022657146536918724120699967834976449160044497642154752067189870556605224818589696699136056252084624781056215409814694754619158 8647133569193095349624539262721952848680309072548660531059883817636118745047684581476674100103690002479560235483901441382550891777858540469825206427481984532211089100484831829003128254961078095115941267446277267854464330978247521528663226692966679002521294362678763977624542214355828976342890485725402635387213560248924475019171424285896907480946272985561182320907138571637232604663996339070426826497646745770691489805444879964239427816942431071314899400890314033599037515917481867884293560791179016681373537747150526705539114758131138414486061502761215992094250911747785678700972789273978561731290158396404284661563 3263660805444857714058948816064244929236974618702871866943640093266015548273228557490731520381620303255735963948715537571058120268861352165334136183035326738054775474642336278104759616549066000732006630612891428407058164435717300579380156195990417529723959268236632958327912824346271970302713901301457234517935727771753896454741098113194395763174401544405619662135121156007101853108235734451972619668192332796243252306602123458466431759263440113891186370761956170456470456710964742187174126331848058918435801252589834899222508293101603201669499833235398066170532771633144474290842883429561523585167195324803517595576 5690540073256562404501175848389778532413659689202285906141539576577212126873191156409796275725445553425511903687297449639291782194363322998910877172571671681562868194497606438474127337036071624468954942509940737676073253568257171658321982445857514966065351927237678007313123657079472519122979518999064735074274536326785475892802458862408811651000109238526522316503917920179626777098106484128694065975438079256717554298766888757120810719351185750339720500088905842191731374263243827070951653206777278747965048437447096105672545656687485966609754810743131544606570543088562715668498164842099673953796027797551439795606
    (by decide) (by decide)
    tv1_h4
    tv1_sq5 tv1_mu5 (by decide)
  have harg : (16994439473022531194542760299034284268619547853855592747462655011797699877099305395844892380938706989667456142713839064845255670795209959670120388825945982175294544796958030484907763717714118323611740552152667191225280491557728369511768285784440777225556371234687090002832738100587471120791286124763913904148376895298687353659081273963938250044008266425737908269895610672672897306713677 : Nat) * 2 ^ 256 + 64307599431582308884899042856161506686743307445369006934127924386004519564803 = 1967821651998393750177635334467817686472470582361279433654006089739424726211649261296132360832458490539428884020528324113792218614268874421890369320684014917166263068845828973619402073288023460584656799669597697865442109439633419891213252442833894892146713769934875500891350277211106774675331500805347311509547891746400878199246543461837784341618741895028498092156821912261915388712271300404484299323292240484791935980582404968600590556418530923673489038976169475 := by decide
  rw [harg] at step
  exact step

theorem tv1_sq6 : powMod 5690540073256562404501175848389778532413659689202285906141539576577212126873191156409796275725445553425511903687297449639291782194363322998910877172571671681562868194497606438474127337036071624468954942509940737676073253568257171658321982445857514966065351927237678007313123657079472519122979518999064735074274536326785475892802458862408811651000109238526522316503917920179626777098106484128694065975438079256717554298766888757120810719351185750339720500088905842191731374263243827070951653206777278747965048437447096105672545656687485966609754810743131544606570543088562715668498164842099673953796027797551439795606 (2 ^ 256) elg_p = 31067652404941169375915184222187639767210554785410403644919503436487408263897376599558285853783386374744952834934316648746323332754142159999975600625654321151937964740130892145204105793415027631391245541592476285447848424018388511661196835069961507473917298249788193483993333573972688212408066667157641241431136381638245103111654549739890013520569245731314145625313824122121167748096688910856834077145932229792981255585210165233899478571721630883425293380984095190859204712349690050546332860539455587375275306877367715199479805116167708734722097361784310818272426313357890527790961242071867429151785801224871190898347 := by decide

theorem tv1_mu6 : powMod 55508729552916152280941439096997193935364245042622243772337853586965690997705265313128575064762014625769443034346824371847566741729540002362414111556397894164135495701232581928417000528595742761671596943874998321873313668362845870333161082910938775838934472430629659757588845410685033390722955642804011793424369437644257818346807576145408460881758916099193853291832248845029614058931044772132612312130054247316243851914963964337494646505440113377389968174067747070891414375270849861140942938320376958400735170992478490174412886325499511371656414608587964531905687422862347440010582325714979733271 88238069990314159757113788621356118669273111731985487267912042981617187576086 elg_p = 20708747993950307550177986723351048620406843757317716751064828170097227916665980142680633390595181197732006365174490784019770769785526056299164487882594795548185236556370013856134046155511256063324323791840317742843680469379517698506744846874871201232745580163558069481957021521893501389126124647691471998041332216295276092483874144857201284692497425445354727746753555683885133397826920278463948890339516925767108477169783502728150279039853260347542637774494337591524003677676518904614002653331125164435289375457729878751347917527022235456457695908063384143881299059074313968100287025775274779759369688706784538030003 := by decide

theorem tv1_h6 : (55508729552916152280941439096997193935364245042622243772337853586965690997705265313128575064762014625769443034346824371847566741729540002362414111556397894164135495701232581928417000528595742761671596943874998321873313668362845870333161082910938775838934472430629659757588845410685033390722955642804011793424369437644257818346807576145408460881758916099193853291832248845029614058931044772132612312130054247316243851914963964337494646505440113377389968174067747070891414375270849861140942938320376958400735170992478490174412886325499511371656414608587964531905687422862347440010582325714979733271 : Nat) ^ 227858180331320984701997622820562417226065736497656224321321983491314611658963056648692170127368156548525110700531683152389247067507511342231042861529237008414787112809666702129455309256526496443569660401575370911445137256532278759997927120572750319290741972260086379218144540762697224409731431355163252108001045944814679822223515206171656518689806185054105020377218919136123723735933692310820371358699216938633137678273734797106721090085938246122970231710656749560013410963267966620306530479478895348680357460817346143382781609408451729686 % elg_p = 6817969828883220348008215252805823208307886435604014488958379652485088483655713209396116368708073138286819799282524360976350443449485351884243671715076161429823163511831397115310701799418940088173927970513441205982377623570647048639248851233956832867130583258412871019055404215799312884529644345333374083513780876075925872462983882050557284121528178092152389584771328038059909066225672753430985690945179121784938464603116530959148486878216697101995593322208089763465637162495358700972010801180110407205375278116271194654334248361308521160089050228527030197089931030250822109301470134823134285472842469317204125084504 := by
  have step := powMod_chunkStep 55508729552916152280941439096997193935364245042622243772337853586965690997705265313128575064762014625769443034346824371847566741729540002362414111556397894164135495701232581928417000528595742761671596943874998321873313668362845870333161082910938775838934472430629659757588845410685033390722955642804011793424369437644257818346807576145408460881758916099193853291832248845029614058931044772132612312130054247316243851914963964337494646505440113377389968174067747070891414375270849861140942938320376958400735170992478490174412886325499511371656414608587964531905687422862347440010582325714979733271 elg_p 1967821651998393750177635334467817686472470582361279433654006089739424726211649261296132360832458490539428884020528324113792218614268874421890369320684014917166263068845828973619402073288023460584656799669597697865442109439633419891213252442833894892146713769934875500891350277211106774675331500805347311509547891746400878199246543461837784341618741895028498092156821912261915388712271300404484299323292240484791935980582404968600590556418530923673489038976169475 88238069990314159757113788621356118669273111731985487267912042981617187576086 5690540073256562404501175848389778532413659689202285906141539576577212126873191156409796275725445553425511903687297449639291782194363322998910877172571671681562868194497606438474127337036071624468954942509940737676073253568257171658321982445857514966065351927237678007313123657079472519122979518999064735074274536326785475892802458862408811651000109238526522316503917920179626777098106484128694065975438079256717554298766888757120810719351185750339720500088905842191731374263243827070951653206777278747965048437447096105672545656687485966609754810743131544606570543088562715668498164842099673953796027797551439795606 31067652404941169375915184222187639767210554785410403644919503436487408263897376599558285853783386374744952834934316648746323332754142159999975600625654321151937964740130892145204105793415027631391245541592476285447848424018388511661196835069961507473917298249788193483993333573972688212408066667157641241431136381638245103111654549739890013520569245731314145625313824122121167748096688910856834077145932229792981255585210165233899478571721630883425293380984095190859204712349690050546332860539455587375275306877367715199479805116167708734722097361784310818272426313357890527790961242071867429151785801224871190898347 20708747993950307550177986723351048620406843757317716751064828170097227916665980142680633390595181197732006365174490784019770769785526056299164487882594795548185236556370013856134046155511256063324323791840317742843680469379517698506744846874871201232745580163558069481957021521893501389126124647691471998041332216295276092483874144857201284692497425445354727746753555683885133397826920278463948890339516925767108477169783502728150279039853260347542637774494337591524003677676518904614002653331125164435289375457729878751347917527022235456457695908063384143881299059074313968100287025775274779759369688706784538030003 6817969828883220348008215252805823208307886435604014488958379652485088483655713209396116368708073138286819799282524360976350443449485351884243671715076161429823163511831397115310701799418940088173927970513441205982377623570647048639248851233956832867130583258412871019055404215799312884529644345333374083513780876075925872462983882050557284121528178092152389584771328038059909066225672753430985690945179121784938464603116530959148486878216697101995593322208089763465637162495358700972010801180110407205375278116271194654334248361308521160089050228527030197089931030250822109301470134823134285472842469317204125084504
    (by decide) (by decide)
    tv1_h5
    tv1_sq6 tv1_mu6 (by decide)
  have harg : (1967821651998393750177635334467817686472470582361279433654006089739424726211649261296132360832458490539428884020528324113792218614268874421890369320684014917166263068845828973619402073288023460584656799669597697865442109439633419891213252442833894892146713769934875500891350277211106774675331500805347311509547891746400878199246543461837784341618741895028498092156821912261915388712271300404484299323292240484791935980582404968600590556418530923673489038976169475 : Nat) * 2 ^ 256 + 88238069990314159757113788621356118669273111731985487267912042981617187576086 = 227858180331320984701997622820562417226065736497656224321321983491314611658963056648692170127368156548525110700531683152389247067507511342231042861529237008414787112809666702129455309256526496443569660401575370911445137256532278759997927120572750319290741972260086379218144540762697224409731431355163252108001045944814679822223515206171656518689806185054105020377218919136123723735933692310820371358699216938633137678273734797106721090085938246122970231710656749560013410963267966620306530479478895348680357460817346143382781609408451729686 := by decide
  rw [harg] at step
  exact step

theorem tv1_sq7 : powMod 6817969828883220348008215252805823208307886435604014488958379652485088483655713209396116368708073138286819799282524360976350443449485351884243671715076161429823163511831397115310701799418940088173927970513441205982377623570647048639248851233956832867130583258412871019055404215799312884529644345333374083513780876075925872462983882050557284121528178092152389584771328038059909066225672753430985690945179121784938464603116530959148486878216697101995593322208089763465637162495358700972010801180110407205375278116271194654334248361308521160089050228527030197089931030250822109301470134823134285472842469317204125084504 (2 ^ 256) elg_p = 24975112708932020033690200763425396750238542987784978087017047513109346740909786254968220590758773059436299171503942290227798289316899956516358499567508821613930737699566419647949187591262210341384954555673136952475510144680887599206561669947118815463894766911068459398966936373316217679643675672711123041960073669237087513453565777794478376915657102092703646647819842578179260912943768128773279358399252699965057134225957204922193495224349226601865376172008618459714076906578311990205728776462493259864308884689055593533686807394355718270763002752345797903255147130870244479826572508953435038613669369528400342228718 := by decide

theorem tv1_mu7 : powMod 55508729552916152280941439096997193935364245042622243772337853586965690997705265313128575064762014625769443034346824371847566741729540002362414111556397894164135495701232581928417000528595742761671596943874998321873313668362845870333161082910938775838934472430629659757588845410685033390722955642804011793424369437644257818346807576145408460881758916099193853291832248845029614058931044772132612312130054247316243851914963964337494646505440113377389968174067747070891414375270849861140942938320376958400735170992478490174412886325499511371656414608587964531905687422862347440010582325714979733271 49954520566013156865742868253997604831668522742319396714319230430121779358176 elg_p = 5079022511982218208806095094745447590826787529897271922191693893910549703164054700157643486935009706591591460187191522504068647639693906539418958325267630334712196874082504150859347720818886609184881034703390845267958388756729277718536986236312307942643153147115533244618859095717353329185090212972250342802667729834350292383926856321922167695232013628484810712812026982487262496814217704917955502366123904785631631965373674387337350165143075104455498476092290868977490522620589063143398920532744824642070656131405310609306786954685508050698440248595005835497032974728751306576674449675812253567780786246145352834705 := by decide

theorem tv1_h7 : (55508729552916152280941439096997193935364245042622243772337853586965690997705265313128575064762014625769443034346824371847566741729540002362414111556397894164135495701232581928417000528595742761671596943874998321873313668362845870333161082910938775838934472430629659757588845410685033390722955642804011793424369437644257818346807576145408460881758916099193853291832248845029614058931044772132612312130054247316243851914963964337494646505440113377389968174067747070891414375270849861140942938320376958400735170992478490174412886325499511371656414608587964531905687422862347440010582325714979733271 : Nat) ^ 26384174750376805400548396517783145908044134001730031595509333742229092057716457049395681087136609449460769714081542124953611658724885015967783481486521979790942037104124035839703520836469427567169492622268478244509914414832841386506174374678165767682317750141058877619117121938820266459618759533698641699356005580345893704748131827664246848090499462515252046955500357237589397718755307978640259189044711728556093778567921655464233283884914088870973957475272936846481114463139736509896608116705720501413533617818176654611803356796348489780500688987452754852316149067379746352522216284445745600625382080115535361698272 % elg_p = 2166061453557888713011866598254753446059524248236944149697993695634662631585615877205459013055644940253299052178279641970894521801908384563470071632917080373588582896368613706136106578018636094448674634813069403843292464599707002137400944254367837758578040184536008828043213428038869038394833147348399663692973184119549273760830930140732094700330351071764810180506059318302520429158922476890136885100066176346251705735262209419953281309205303947150839443210911908678362219081390693137789169198516865550237079445113066450689074548083370300826713704928495608990872266942251130034147191620877728591985806485979124730458 := by
  have step := powMod_chunkStep 55508729552916152280941439096997193935364245042622243772337853586965690997705265313128575064762014625769443034346824371847566741729540002362414111556397894164135495701232581928417000528595742761671596943874998321873313668362845870333161082910938775838934472430629659757588845410685033390722955642804011793424369437644257818346807576145408460881758916099193853291832248845029614058931044772132612312130054247316243851914963964337494646505440113377389968174067747070891414375270849861140942938320376958400735170992478490174412886325499511371656414608587964531905687422862347440010582325714979733271 elg_p 227858180331320984701997622820562417226065736497656224321321983491314611658963056648692170127368156548525110700531683152389247067507511342231042861529237008414787112809666702129455309256526496443569660401575370911445137256532278759997927120572750319290741972260086379218144540762697224409731431355163252108001045944814679822223515206171656518689806185054105020377218919136123723735933692310820371358699216938633137678273734797106721090085938246122970231710656749560013410963267966620306530479478895348680357460817346143382781609408451729686 49954520566013156865742868253997604831668522742319396714319230430121779358176 6817969828883220348008215252805823208307886435604014488958379652485088483655713209396116368708073138286819799282524360976350443449485351884243671715076161429823163511831397115310701799418940088173927970513441205982377623570647048639248851233956832867130583258412871019055404215799312884529644345333374083513780876075925872462983882050557284121528178092152389584771328038059909066225672753430985690945179121784938464603116530959148486878216697101995593322208089763465637162495358700972010801180110407205375278116271194654334248361308521160089050228527030197089931030250822109301470134823134285472842469317204125084504 24975112708932020033690200763425396750238542987784978087017047513109346740909786254968220590758773059436299171503942290227798289316899956516358499567508821613930737699566419647949187591262210341384954555673136952475510144680887599206561669947118815463894766911068459398966936373316217679643675672711123041960073669237087513453565777794478376915657102092703646647819842578179260912943768128773279358399252699965057134225957204922193495224349226601865376172008618459714076906578311990205728776462493259864308884689055593533686807394355718270763002752345797903255147130870244479826572508953435038613669369528400342228718 5079022511982218208806095094745447590826787529897271922191693893910549703164054700157643486935009706591591460187191522504068647639693906539418958325267630334712196874082504150859347720818886609184881034703390845267958388756729277718536986236312307942643153147115533244618859095717353329185090212972250342802667729834350292383926856321922167695232013628484810712812026982487262496814217704917955502366123904785631631965373674387337350165143075104455498476092290868977490522620589063143398920532744824642070656131405310609306786954685508050698440248595005835497032974728751306576674449675812253567780786246145352834705 2166061453557888713011866598254753446059524248236944149697993695634662631585615877205459013055644940253299052178279641970894521801908384563470071632917080373588582896368613706136106578018636094448674634813069403843292464599707002137400944254367837758578040184536008828043213428038869038394833147348399663692973184119549273760830930140732094700330351071764810180506059318302520429158922476890136885100066176346251705735262209419953281309205303947150839443210911908678362219081390693137789169198516865550237079445113066450689074548083370300826713704928495608990872266942251130034147191620877728591985806485979124730458
    (by decide) (by decide)
    tv1_h6
    tv1_sq7 tv1_mu7 (by decide)
  have harg : (227858180331320984701997622820562417226065736497656224321321983491314611658963056648692170127368156548525110700531683152389247067507511342231042861529237008414787112809666702129455309256526496443569660401575370911445137256532278759997927120572750319290741972260086379218144540762697224409731431355163252108001045944814679822223515206171656518689806185054105020377218919136123723735933692310820371358699216938633137678273734797106721090085938246122970231710656749560013410963267966620306530479478895348680357460817346143382781609408451729686 : Nat) * 2 ^ 256 + 49954520566013156865742868253997604831668522742319396714319230430121779358176 = 26384174750376805400548396517783145908044134001730031595509333742229092057716457049395681087136609449460769714081542124953611658724885015967783481486521979790942037104124035839703520836469427567169492622268478244509914414832841386506174374678165767682317750141058877619117121938820266459618759533698641699356005580345893704748131827664246848090499462515252046955500357237589397718755307978640259189044711728556093778567921655464233283884914088870973957475272936846481114463139736509896608116705720501413533617818176654611803356796348489780500688987452754852316149067379746352522216284445745600625382080115535361698272 := by decide
  rw [harg] at step
  exact step

theorem tv1_shared : powMod (fromBytesBE tvPeer1) tvPriv1 elg_p = 2166061453557888713011866598254753446059524248236944149697993695634662631585615877205459013055644940253299052178279641970894521801908384563470071632917080373588582896368613706136106578018636094448674634813069403843292464599707002137400944254367837758578040184536008828043213428038869038394833147348399663692973184119549273760830930140732094700330351071764810180506059318302520429158922476890136885100066176346251705735262209419953281309205303947150839443210911908678362219081390693137789169198516865550237079445113066450689074548083370300826713704928495608990872266942251130034147191620877728591985806485979124730458 := by
  have hB : fromBytesBE tvPeer1 = 55508729552916152280941439096997193935364245042622243772337853586965690997705265313128575064762014625769443034346824371847566741729540002362414111556397894164135495701232581928417000528595742761671596943874998321873313668362845870333161082910938775838934472430629659757588845410685033390722955642804011793424369437644257818346807576145408460881758916099193853291832248845029614058931044772132612312130054247316243851914963964337494646505440113377389968174067747070891414375270849861140942938320376958400735170992478490174412886325499511371656414608587964531905687422862347440010582325714979733271 := by decide
  have hE : tvPriv1 = 26384174750376805400548396517783145908044134001730031595509333742229092057716457049395681087136609449460769714081542124953611658724885015967783481486521979790942037104124035839703520836469427567169492622268478244509914414832841386506174374678165767682317750141058877619117121938820266459618759533698641699356005580345893704748131827664246848090499462515252046955500357237589397718755307978640259189044711728556093778567921655464233283884914088870973957475272936846481114463139736509896608116705720501413533617818176654611803356796348489780500688987452754852316149067379746352522216284445745600625382080115535361698272 := by decide
  rw [hB, hE, powMod_correct 55508729552916152280941439096997193935364245042622243772337853586965690997705265313128575064762014625769443034346824371847566741729540002362414111556397894164135495701232581928417000528595742761671596943874998321873313668362845870333161082910938775838934472430629659757588845410685033390722955642804011793424369437644257818346807576145408460881758916099193853291832248845029614058931044772132612312130054247316243851914963964337494646505440113377389968174067747070891414375270849861140942938320376958400735170992478490174412886325499511371656414608587964531905687422862347440010582325714979733271 26384174750376805400548396517783145908044134001730031595509333742229092057716457049395681087136609449460769714081542124953611658724885015967783481486521979790942037104124035839703520836469427567169492622268478244509914414832841386506174374678165767682317750141058877619117121938820266459618759533698641699356005580345893704748131827664246848090499462515252046955500357237589397718755307978640259189044711728556093778567921655464233283884914088870973957475272936846481114463139736509896608116705720501413533617818176654611803356796348489780500688987452754852316149067379746352522216284445745600625382080115535361698272 elg_p (by decide) (by rw [pow2_4096_eq]; decide)]
  exact tv1_h7

theorem tv2_p0 : powMod 26407223630816158402031804929906502978789456712653813775417337654247635932022617995318122972253206837324515924045663675210201674785142011989083917477263068123361903950170567174001810960958303550705638766840711688848274729946659739751858962314093644816901052632656142875056361809877190078272332528732675050760712883241259857825838718618748201425572483871890001649638902442432997617546067605595523080302772399447364847783240453826573112217299951622396027991521911746332326049335566213655871283206274337235182931121192621232571932979605107294858084457511456971054526727510511329552549978862138850946742253539790422478087 46986226972390832931994921360652212402698803369412616141548550721042644953406 elg_p = 23099093642011805765931317521480092850583551513320417331805147493296185683032409360721768249647953444694480532784126018620489695894352397746211145539835844449062034745967589092988635637974652944044447818637369849603759424545202999566170503089257357414620686406123695123579030237654348885073384967287189690866089613671131707255023946065153451064324896154307864794990275814480821322898280177454967845038160225288762514956679071984868658238907874656389252024974635659339163298941537766066793916127887118058935833762589071646438282262112349749433661207147995431017390691246565507527402625049317423989845470093205395710970 := by decide

theorem tv2_sq1 : powMod 23099093642011805765931317521480092850583551513320417331805147493296185683032409360721768249647953444694480532784126018620489695894352397746211145539835844449062034745967589092988635637974652944044447818637369849603759424545202999566170503089257357414620686406123695123579030237654348885073384967287189690866089613671131707255023946065153451064324896154307864794990275814480821322898280177454967845038160225288762514956679071984868658238907874656389252024974635659339163298941537766066793916127887118058935833762589071646438282262112349749433661207147995431017390691246565507527402625049317423989845470093205395710970 (2 ^ 256) elg_p = 19190004109782303974417696888373114658548079192467369063738567260832803775286665738054771764866166827847524636682147847157209790544689963044612453721204404312409777280129829967018539505847924314223013180528944362224818799660997913416111027086877081600305657312469458426333199831264999634423368778892220196955110515640100119625958603444051163950132091612305585247096867212993605582256495463861902805023672106392091616831241100363623970812228742574139191177437374711361747596620701655403419127396689689925564133615936513005164825477977946873748151041840179415330062662511164163618025557342302847011726829211399029516153 := by decide

theorem tv2_mu1 : powMod 26407223630816158402031804929906502978789456712653813775417337654247635932022617995318122972253206837324515924045663675210201674785142011989083917477263068123361903950170567174001810960958303550705638766840711688848274729946659739751858962314093644816901052632656142875056361809877190078272332528732675050760712883241259857825838718618748201425572483871890001649638902442432997617546067605595523080302772399447364847783240453826573112217299951622396027991521911746332326049335566213655871283206274337235182931121192621232571932979605107294858084457511456971054526727510511329552549978862138850946742253539790422478087 81691955703694588426501919524946060250836028747710183112728053488698428957692 elg_p = 4341685654572487003128192053446450872858826201793772903717056913970054167561578289856239601832804282842526439259261064875344963899622807212767354592862924363324400420087195717268921197539326425084871014172823018670782261508924064414088792194937709210938308984567969479282374667449556124457253671080022823966843829847077959511008423718680179842168476462553235572627382061118249482173912415078088569365579766851079277481791658774857796378679712008187528103739872316096168370727898325654734233800872000433409895335899196179348337238887119096914945106244563817108323805377247124664681755120520817951134279157067756589264 := by decide

theorem tv2_h1 : (26407223630816158402031804929906502978789456712653813775417337654247635932022617995318122972253206837324515924045663675210201674785142011989083917477263068123361903950170567174001810960958303550705638766840711688848274729946659739751858962314093644816901052632656142875056361809877190078272332528732675050760712883241259857825838718618748201425572483871890001649638902442432997617546067605595523080302772399447364847783240453826573112217299951622396027991521911746332326049335566213655871283206274337235182931121192621232571932979605107294858084457511456971054526727510511329552549978862138850946742253539790422478087 : Nat) ^ 5440633386511872492041851846579735493498896593807753405379405609568011707933717257858562629671402572738233972756268005287459866774972877396135406705779708 % elg_p = 12204085913160778900061702177045945648505450101705702981723479097599799953627942095021140345808246451216767260197956696893201119900698392093684815323830781109619451091672994187779850593728173404712931458685925267320120022800939906091246176663053176255827303176272274564653956973124853960201112277697034880985447654378708986784531792242660873921447757222689287573148521449743659019645365846120377435956993256497942389183542302061638827700335577189404126201882389806110902322671246004772773137119606194331160534198002769844503381773899924661724240342452588702326106621176400588741064806695432477399647509787170207016848 := by
  have step := powMod_chunkStep 26407223630816158402031804929906502978789456712653813775417337654247635932022617995318122972253206837324515924045663675210201674785142011989083917477263068123361903950170567174001810960958303550705638766840711688848274729946659739751858962314093644816901052632656142875056361809877190078272332528732675050760712883241259857825838718618748201425572483871890001649638902442432997617546067605595523080302772399447364847783240453826573112217299951622396027991521911746332326049335566213655871283206274337235182931121192621232571932979605107294858084457511456971054526727510511329552549978862138850946742253539790422478087 elg_p 46986226972390832931994921360652212402698803369412616141548550721042644953406 81691955703694588426501919524946060250836028747710183112728053488698428957692 23099093642011805765931317521480092850583551513320417331805147493296185683032409360721768249647953444694480532784126018620489695894352397746211145539835844449062034745967589092988635637974652944044447818637369849603759424545202999566170503089257357414620686406123695123579030237654348885073384967287189690866089613671131707255023946065153451064324896154307864794990275814480821322898280177454967845038160225288762514956679071984868658238907874656389252024974635659339163298941537766066793916127887118058935833762589071646438282262112349749433661207147995431017390691246565507527402625049317423989845470093205395710970 19190004109782303974417696888373114658548079192467369063738567260832803775286665738054771764866166827847524636682147847157209790544689963044612453721204404312409777280129829967018539505847924314223013180528944362224818799660997913416111027086877081600305657312469458426333199831264999634423368778892220196955110515640100119625958603444051163950132091612305585247096867212993605582256495463861902805023672106392091616831241100363623970812228742574139191177437374711361747596620701655403419127396689689925564133615936513005164825477977946873748151041840179415330062662511164163618025557342302847011726829211399029516153 4341685654572487003128192053446450872858826201793772903717056913970054167561578289856239601832804282842526439259261064875344963899622807212767354592862924363324400420087195717268921197539326425084871014172823018670782261508924064414088792194937709210938308984567969479282374667449556124457253671080022823966843829847077959511008423718680179842168476462553235572627382061118249482173912415078088569365579766851079277481791658774857796378679712008187528103739872316096168370727898325654734233800872000433409895335899196179348337238887119096914945106244563817108323805377247124664681755120520817951134279157067756589264 12204085913160778900061702177045945648505450101705702981723479097599799953627942095021140345808246451216767260197956696893201119900698392093684815323830781109619451091672994187779850593728173404712931458685925267320120022800939906091246176663053176255827303176272274564653956973124853960201112277697034880985447654378708986784531792242660873921447757222689287573148521449743659019645365846120377435956993256497942389183542302061638827700335577189404126201882389806110902322671246004772773137119606194331160534198002769844503381773899924661724240342452588702326106621176400588741064806695432477399647509787170207016848
    (by decide) (by decide)
    ((powMod_correct 26407223630816158402031804929906502978789456712653813775417337654247635932022617995318122972253206837324515924045663675210201674785142011989083917477263068123361903950170567174001810960958303550705638766840711688848274729946659739751858962314093644816901052632656142875056361809877190078272332528732675050760712883241259857825838718618748201425572483871890001649638902442432997617546067605595523080302772399447364847783240453826573112217299951622396027991521911746332326049335566213655871283206274337235182931121192621232571932979605107294858084457511456971054526727510511329552549978862138850946742253539790422478087 46986226972390832931994921360652212402698803369412616141548550721042644953406 elg_p (by decide) (by rw [pow2_4096_eq]; decide)).symm.trans tv2_p0)
    tv2_sq1 tv2_mu1 (by decide)
  have harg : (46986226972390832931994921360652212402698803369412616141548550721042644953406 : Nat) * 2 ^ 256 + 81691955703694588426501919524946060250836028747710183112728053488698428957692 = 5440633386511872492041851846579735493498896593807753405379405609568011707933717257858562629671402572738233972756268005287459866774972877396135406705779708 := by decide
  rw [harg] at step
  exact step

theorem tv2_sq2 : powMod 12204085913160778900061702177045945648505450101705702981723479097599799953627942095021140345808246451216767260197956696893201119900698392093684815323830781109619451091672994187779850593728173404712931458685925267320120022800939906091246176663053176255827303176272274564653956973124853960201112277697034880985447654378708986784531792242660873921447757222689287573148521449743659019645365846120377435956993256497942389183542302061638827700335577189404126201882389806110902322671246004772773137119606194331160534198002769844503381773899924661724240342452588702326106621176400588741064806695432477399647509787170207016848 (2 ^ 256) elg_p = 11950726656010977526837978332107838081292519238295497063676967373659532387968260031854313428850614186500654898031364722036591621620146775246915577687048627938499212799979062439295877473324326505647617033782727903644990726382400991789083746666031250114280855569520839473908197586354895820032303879551452480943747498781891349780506324213489012149926915816999647316197823673550875443622476045987855627084473337941905199899737388596397993429887879223711942252542344354353931290364372999764438050569166768701919494719059411886672947907866916495097110006919946507877950384106942692092677052426696492655084762535111695934138 := by decide

theorem tv2_mu2 : powMod 26407223630816158402031804929906502978789456712653813775417337654247635932022617995318122972253206837324515924045663675210201674785142011989083917477263068123361903950170567174001810960958303550705638766840711688848274729946659739751858962314093644816901052632656142875056361809877190078272332528732675050760712883241259857825838718618748201425572483871890001649638902442432997617546067605595523080302772399447364847783240453826573112217299951622396027991521911746332326049335566213655871283206274337235182931121192621232571932979605107294858084457511456971054526727510511329552549978862138850946742253539790422478087 63761681307243531632163524833434386672934354116765627774238094017543458851132 elg_p = 25237022149710704108481114735660138752463653590082158130225292253948461922874831168907300172985271495190045812981680508695064110727579213405915044486666786776838390796187553728142059291884526324910244164589176750180529636285046472940686382460904387198805528221391529897744933352873723832164297965522191790076114809406395518293249653048080338604542154694562767161422256261772595716632261963851777158362468832938581488749667597303369602387248132977771859551953407190504206330575219156813079260850841667305044445441589478017299129639850084874521539875160237484882603638005624912313555265525765919266356232450638829450304 := by decide

theorem tv2_h2 : (26407223630816158402031804929906502978789456712653813775417337654247635932022617995318122972253206837324515924045663675210201674785142011989083917477263068123361903950170567174001810960958303550705638766840711688848274729946659739751858962314093644816901052632656142875056361809877190078272332528732675050760712883241259857825838718618748201425572483871890001649638902442432997617546067605595523080302772399447364847783240453826573112217299951622396027991521911746332326049335566213655871283206274337235182931121192621232571932979605107294858084457511456971054526727510511329552549978862138850946742253539790422478087 : Nat) ^ 629982306598504555136618245476502406017720963982512433742571649142378309812392177412528861964620296447779715780588103519496184860653168972240602605315137007390295456612702650854844349435886012952418749954252732247173518199634069820 % elg_p = 31466187194820887074421472917752753051428749417731720768037259306223181568378634598310912862918221456098062566389074325010061737198377611942235960970250000862321418688435590260807146982709232509639143241420774672860469208612700032731458566836003149092308940038803898029992996029133951866178769841175661496989065965772542721507772829167663823750573359399765739557524014920348390628299852702845374687860687604370484746637516891828566921619833309977592985830227816462195897973916522785105443224579813502253730751860344757030506950539274438046433583491619112459583829474823593257247990086186659705975144178791745940273600 := by
  have step := powMod_chunkStep 26407223630816158402031804929906502978789456712653813775417337654247635932022617995318122972253206837324515924045663675210201674785142011989083917477263068123361903950170567174001810960958303550705638766840711688848274729946659739751858962314093644816901052632656142875056361809877190078272332528732675050760712883241259857825838718618748201425572483871890001649638902442432997617546067605595523080302772399447364847783240453826573112217299951622396027991521911746332326049335566213655871283206274337235182931121192621232571932979605107294858084457511456971054526727510511329552549978862138850946742253539790422478087 elg_p 5440633386511872492041851846579735493498896593807753405379405609568011707933717257858562629671402572738233972756268005287459866774972877396135406705779708 63761681307243531632163524833434386672934354116765627774238094017543458851132 12204085913160778900061702177045945648505450101705702981723479097599799953627942095021140345808246451216767260197956696893201119900698392093684815323830781109619451091672994187779850593728173404712931458685925267320120022800939906091246176663053176255827303176272274564653956973124853960201112277697034880985447654378708986784531792242660873921447757222689287573148521449743659019645365846120377435956993256497942389183542302061638827700335577189404126201882389806110902322671246004772773137119606194331160534198002769844503381773899924661724240342452588702326106621176400588741064806695432477399647509787170207016848 11950726656010977526837978332107838081292519238295497063676967373659532387968260031854313428850614186500654898031364722036591621620146775246915577687048627938499212799979062439295877473324326505647617033782727903644990726382400991789083746666031250114280855569520839473908197586354895820032303879551452480943747498781891349780506324213489012149926915816999647316197823673550875443622476045987855627084473337941905199899737388596397993429887879223711942252542344354353931290364372999764438050569166768701919494719059411886672947907866916495097110006919946507877950384106942692092677052426696492655084762535111695934138 25237022149710704108481114735660138752463653590082158130225292253948461922874831168907300172985271495190045812981680508695064110727579213405915044486666786776838390796187553728142059291884526324910244164589176750180529636285046472940686382460904387198805528221391529897744933352873723832164297965522191790076114809406395518293249653048080338604542154694562767161422256261772595716632261963851777158362468832938581488749667597303369602387248132977771859551953407190504206330575219156813079260850841667305044445441589478017299129639850084874521539875160237484882603638005624912313555265525765919266356232450638829450304 31466187194820887074421472917752753051428749417731720768037259306223181568378634598310912862918221456098062566389074325010061737198377611942235960970250000862321418688435590260807146982709232509639143241420774672860469208612700032731458566836003149092308940038803898029992996029133951866178769841175661496989065965772542721507772829167663823750573359399765739557524014920348390628299852702845374687860687604370484746637516891828566921619833309977592985830227816462195897973916522785105443224579813502253730751860344757030506950539274438046433583491619112459583829474823593257247990086186659705975144178791745940273600
    (by decide) (by decide)
    tv2_h1
    tv2_sq2 tv2_mu2 (by decide)
  have harg : (5440633386511872492041851846579735493498896593807753405379405609568011707933717257858562629671402572738233972756268005287459866774972877396135406705779708 : Nat) * 2 ^ 256 + 63761681307243531632163524833434386672934354116765627774238094017543458851132 = 629982306598504555136618245476502406017720963982512433742571649142378309812392177412528861964620296447779715780588103519496184860653168972240602605315137007390295456612702650854844349435886012952418749954252732247173518199634069820 := by decide
  rw [harg] at step
  exact step

theorem tv2_sq3 : powMod 31466187194820887074421472917752753051428749417731720768037259306223181568378634598310912862918221456098062566389074325010061737198377611942235960970250000862321418688435590260807146982709232509639143241420774672860469208612700032731458566836003149092308940038803898029992996029133951866178769841175661496989065965772542721507772829167663823750573359399765739557524014920348390628299852702845374687860687604370484746637516891828566921619833309977592985830227816462195897973916522785105443224579813502253730751860344757030506950539274438046433583491619112459583829474823593257247990086186659705975144178791745940273600 (2 ^ 256) elg_p = 19598081529688344887129161341623589629225757338212120066542421920898154270956761928279771772587508041848409782079221521563878384822625094737128096930836070165355738970920323987516057730193086471259907984893236221705160234242476429976356933690192946558864527035480061696463273974101574457479515866241916252908166239505533081930965320099347390364133662477267847466903314040945190743092198207222448842032824255326138771772523935577730264897463994279218535112003136662950463363685825069869206487864673398910808564246702117606844762311347758219052481687941909381676957342701155795385872749320472282351402761925519020065021 := by decide

theorem tv2_mu3 : powMod 26407223630816158402031804929906502978789456712653813775417337654247635932022617995318122972253206837324515924045663675210201674785142011989083917477263068123361903950170567174001810960958303550705638766840711688848274729946659739751858962314093644816901052632656142875056361809877190078272332528732675050760712883241259857825838718618748201425572483871890001649638902442432997617546067605595523080302772399447364847783240453826573112217299951622396027991521911746332326049335566213655871283206274337235182931121192621232571932979605107294858084457511456971054526727510511329552549978862138850946742253539790422478087 82172331978081096674177011566092156860737595279531979965594568543425761447995 elg_p = 7481133354486404543921517875612020561181184153162290276232993413091186045625042001384492166108464374882522136850151677808032525484414381283705540962422302687279622319943970310743163029260132957162790044227228380162365619316324590750593197286874430247944782648617223702105922143681840623845783352195687464038784892461819111320406289206328088249979479398949536948505600635236017918314967857049282184148529477706823523431753204588203348273910421278278376025757341592042381628580980593355782087930566882142380396347198889453773762847091260909893058383508049794399407755955765347499817687199574808999317169774520585448125 := by decide

theorem tv2_h3 : (26407223630816158402031804929906502978789456712653813775417337654247635932022617995318122972253206837324515924045663675210201674785142011989083917477263068123361903950170567174001810960958303550705638766840711688848274729946659739751858962314093644816901052632656142875056361809877190078272332528732675050760712883241259857825838718618748201425572483871890001649638902442432997617546067605595523080302772399447364847783240453826573112217299951622396027991521911746332326049335566213655871283206274337235182931121192621232571932979605107294858084457511456971054526727510511329552549978862138850946742253539790422478087 : Nat) ^ 72946967463584330901407426898402763365500081153587600083043818115988596384966451503015852036468983059767840500896409336120898544359374301738133718252071799502650456986810807425807727626691776701733530657749535919966600532968600844731998914697793749045440435055033873293856300416320937374894138425120645779515 % elg_p = 26753803534076737429344051899342177399466195922469270347072866201268095429432838970639564015272638191183706309689218010964322034121276307085971586769337380549528605769867461229386791435203041511879949653330818736520267162982878083761593190297354594400775847167911412161537484378879182467311889993013959547638171335201005254665201520622350054545883372952696029815156013236882266386053941151570700532458702700118504470881040382221849185816381119337545022064758697194799629730816414139211485879436299044924325096021434600569757219381960860011661401589273828402572258826728642701852930571269996991152709282464393367126152 := by
  have step := powMod_chunkStep 26407223630816158402031804929906502978789456712653813775417337654247635932022617995318122972253206837324515924045663675210201674785142011989083917477263068123361903950170567174001810960958303550705638766840711688848274729946659739751858962314093644816901052632656142875056361809877190078272332528732675050760712883241259857825838718618748201425572483871890001649638902442432997617546067605595523080302772399447364847783240453826573112217299951622396027991521911746332326049335566213655871283206274337235182931121192621232571932979605107294858084457511456971054526727510511329552549978862138850946742253539790422478087 elg_p 629982306598504555136618245476502406017720963982512433742571649142378309812392177412528861964620296447779715780588103519496184860653168972240602605315137007390295456612702650854844349435886012952418749954252732247173518199634069820 82172331978081096674177011566092156860737595279531979965594568543425761447995 31466187194820887074421472917752753051428749417731720768037259306223181568378634598310912862918221456098062566389074325010061737198377611942235960970250000862321418688435590260807146982709232509639143241420774672860469208612700032731458566836003149092308940038803898029992996029133951866178769841175661496989065965772542721507772829167663823750573359399765739557524014920348390628299852702845374687860687604370484746637516891828566921619833309977592985830227816462195897973916522785105443224579813502253730751860344757030506950539274438046433583491619112459583829474823593257247990086186659705975144178791745940273600 19598081529688344887129161341623589629225757338212120066542421920898154270956761928279771772587508041848409782079221521563878384822625094737128096930836070165355738970920323987516057730193086471259907984893236221705160234242476429976356933690192946558864527035480061696463273974101574457479515866241916252908166239505533081930965320099347390364133662477267847466903314040945190743092198207222448842032824255326138771772523935577730264897463994279218535112003136662950463363685825069869206487864673398910808564246702117606844762311347758219052481687941909381676957342701155795385872749320472282351402761925519020065021 7481133354486404543921517875612020561181184153162290276232993413091186045625042001384492166108464374882522136850151677808032525484414381283705540962422302687279622319943970310743163029260132957162790044227228380162365619316324590750593197286874430247944782648617223702105922143681840623845783352195687464038784892461819111320406289206328088249979479398949536948505600635236017918314967857049282184148529477706823523431753204588203348273910421278278376025757341592042381628580980593355782087930566882142380396347198889453773762847091260909893058383508049794399407755955765347499817687199574808999317169774520585448125 26753803534076737429344051899342177399466195922469270347072866201268095429432838970639564015272638191183706309689218010964322034121276307085971586769337380549528605769867461229386791435203041511879949653330818736520267162982878083761593190297354594400775847167911412161537484378879182467311889993013959547638171335201005254665201520622350054545883372952696029815156013236882266386053941151570700532458702700118504470881040382221849185816381119337545022064758697194799629730816414139211485879436299044924325096021434600569757219381960860011661401589273828402572258826728642701852930571269996991152709282464393367126152
    (by decide) (by decide)
    tv2_h2
    tv2_sq3 tv2_mu3 (by decide)
  have harg : (629982306598504555136618245476502406017720963982512433742571649142378309812392177412528861964620296447779715780588103519496184860653168972240602605315137007390295456612702650854844349435886012952418749954252732247173518199634069820 : Nat) * 2 ^ 256 + 82172331978081096674177011566092156860737595279531979965594568543425761447995 = 72946967463584330901407426898402763365500081153587600083043818115988596384966451503015852036468983059767840500896409336120898544359374301738133718252071799502650456986810807425807727626691776701733530657749535919966600532968600844731998914697793749045440435055033873293856300416320937374894138425120645779515 := by decide
  rw [harg] at step
  exact step

theorem tv2_sq4 : powMod 26753803534076737429344051899342177399466195922469270347072866201268095429432838970639564015272638191183706309689218010964322034121276307085971586769337380549528605769867461229386791435203041511879949653330818736520267162982878083761593190297354594400775847167911412161537484378879182467311889993013959547638171335201005254665201520622350054545883372952696029815156013236882266386053941151570700532458702700118504470881040382221849185816381119337545022064758697194799629730816414139211485879436299044924325096021434600569757219381960860011661401589273828402572258826728642701852930571269996991152709282464393367126152 (2 ^ 256) elg_p = 25851394450736589652498302980013451818360088777958405556065644755566485269331239211113316491151353881942021453994072333335497407723595591820107149557117657795676696557745931163102071434830632712666623688172446144755430226863079647252848423334889184195936430611299565984049103303795655601803626002362244246404452951734038154983911061111888390267307836900458822200746701590252864223424204704543472308474348426901475304420218288369141176053049128894972218239494547885049279288810920218757498561707777857965586288804290843623377392731920727675726637352926880332399649174213426360521310684041829637325564124384002813188531 := by decide

theorem tv2_mu4 : powMod 26407223630816158402031804929906502978789456712653813775417337654247635932022617995318122972253206837324515924045663675210201674785142011989083917477263068123361903950170567174001810960958303550705638766840711688848274729946659739751858962314093644816901052632656142875056361809877190078272332528732675050760712883241259857825838718618748201425572483871890001649638902442432997617546067605595523080302772399447364847783240453826573112217299951622396027991521911746332326049335566213655871283206274337235182931121192621232571932979605107294858084457511456971054526727510511329552549978862138850946742253539790422478087 89680001395676958805986336492619493104027208872261085133425746563470250639273 elg_p = 11394457947128011537119515768326720672217274245753574032253119614529629883819086098456743958145973962857567944566655162584820017522047114380237663904306488270979270167813909216715256335971580988459578086190463875227965583298220629723295800565736772396641894685002284610127054642937533205525122665264912501198321574454355946247085053336037660078532955286532808610118161441768162454533874775637810952099346630788548244213623786345583356078804506835151284316209556223337938083880019935211485545221784363468436885916226994376727224633903897708573791606396754701082811904501284047353328460577732318386040066572834020002403 := by decide

theorem tv2_h4 : (26407223630816158402031804929906502978789456712653813775417337654247635932022617995318122972253206837324515924045663675210201674785142011989083917477263068123361903950170567174001810960958303550705638766840711688848274729946659739751858962314093644816901052632656142875056361809877190078272332528732675050760712883241259857825838718618748201425572483871890001649638902442432997617546067605595523080302772399447364847783240453826573112217299951622396027991521911746332326049335566213655871283206274337235182931121192621232571932979605107294858084457511456971054526727510511329552549978862138850946742253539790422478087 : Nat) ^ 8446681766134957888886072333770900631707706366087502067445098384217162618550611547683017127261258307774910457762222603385607752813912400344891355543324714626791699794334744107777190649008040087950703917241990527605942049956938867731652573892108496724351938839673217264531845286182582210106821714474916325340763502472795917233136091581868718808865733773496157166683895341176800245350313 % elg_p = 20920883974170873102979907092242026960014795255923894771778023349169036369648508569381619669893820330680916216886754659844918016039821992307208982843568016190574340716290793114881573905145561802638872708486710699906688758664533852067870475785761805364732542910752801954382994706840964074551046055391654458699597728306010095399283208005373795470558403623280982074370627929372525134975036357083121583577902813213988232193820289946151329778913506798140300947150913379605591698454558703623869937446210978191204965939509070373899399723894176739234965565009167970602754943738700115884043718467399335897527766052528769072071 := by
  have step := powMod_chunkStep 26407223630816158402031804929906502978789456712653813775417337654247635932022617995318122972253206837324515924045663675210201674785142011989083917477263068123361903950170567174001810960958303550705638766840711688848274729946659739751858962314093644816901052632656142875056361809877190078272332528732675050760712883241259857825838718618748201425572483871890001649638902442432997617546067605595523080302772399447364847783240453826573112217299951622396027991521911746332326049335566213655871283206274337235182931121192621232571932979605107294858084457511456971054526727510511329552549978862138850946742253539790422478087 elg_p 72946967463584330901407426898402763365500081153587600083043818115988596384966451503015852036468983059767840500896409336120898544359374301738133718252071799502650456986810807425807727626691776701733530657749535919966600532968600844731998914697793749045440435055033873293856300416320937374894138425120645779515 89680001395676958805986336492619493104027208872261085133425746563470250639273 26753803534076737429344051899342177399466195922469270347072866201268095429432838970639564015272638191183706309689218010964322034121276307085971586769337380549528605769867461229386791435203041511879949653330818736520267162982878083761593190297354594400775847167911412161537484378879182467311889993013959547638171335201005254665201520622350054545883372952696029815156013236882266386053941151570700532458702700118504470881040382221849185816381119337545022064758697194799629730816414139211485879436299044924325096021434600569757219381960860011661401589273828402572258826728642701852930571269996991152709282464393367126152 25851394450736589652498302980013451818360088777958405556065644755566485269331239211113316491151353881942021453994072333335497407723595591820107149557117657795676696557745931163102071434830632712666623688172446144755430226863079647252848423334889184195936430611299565984049103303795655601803626002362244246404452951734038154983911061111888390267307836900458822200746701590252864223424204704543472308474348426901475304420218288369141176053049128894972218239494547885049279288810920218757498561707777857965586288804290843623377392731920727675726637352926880332399649174213426360521310684041829637325564124384002813188531 11394457947128011537119515768326720672217274245753574032253119614529629883819086098456743958145973962857567944566655162584820017522047114380237663904306488270979270167813909216715256335971580988459578086190463875227965583298220629723295800565736772396641894685002284610127054642937533205525122665264912501198321574454355946247085053336037660078532955286532808610118161441768162454533874775637810952099346630788548244213623786345583356078804506835151284316209556223337938083880019935211485545221784363468436885916226994376727224633903897708573791606396754701082811904501284047353328460577732318386040066572834020002403 20920883974170873102979907092242026960014795255923894771778023349169036369648508569381619669893820330680916216886754659844918016039821992307208982843568016190574340716290793114881573905145561802638872708486710699906688758664533852067870475785761805364732542910752801954382994706840964074551046055391654458699597728306010095399283208005373795470558403623280982074370627929372525134975036357083121583577902813213988232193820289946151329778913506798140300947150913379605591698454558703623869937446210978191204965939509070373899399723894176739234965565009167970602754943738700115884043718467399335897527766052528769072071
    (by decide) (by decide)
    tv2_h3
    tv2_sq4 tv2_mu4 (by decide)
  have harg : (72946967463584330901407426898402763365500081153587600083043818115988596384966451503015852036468983059767840500896409336120898544359374301738133718252071799502650456986810807425807727626691776701733530657749535919966600532968600844731998914697793749045440435055033873293856300416320937374894138425120645779515 : Nat) * 2 ^ 256 + 89680001395676958805986336492619493104027208872261085133425746563470250639273 = 8446681766134957888886072333770900631707706366087502067445098384217162618550611547683017127261258307774910457762222603385607752813912400344891355543324714626791699794334744107777190649008040087950703917241990527605942049956938867731652573892108496724351938839673217264531845286182582210106821714474916325340763502472795917233136091581868718808865733773496157166683895341176800245350313 := by decide
  rw [harg] at step
  exact step

theorem tv2_sq5 : powMod 20920883974170873102979907092242026960014795255923894771778023349169036369648508569381619669893820330680916216886754659844918016039821992307208982843568016190574340716290793114881573905145561802638872708486710699906688758664533852067870475785761805364732542910752801954382994706840964074551046055391654458699597728306010095399283208005373795470558403623280982074370627929372525134975036357083121583577902813213988232193820289946151329778913506798140300947150913379605591698454558703623869937446210978191204965939509070373899399723894176739234965565009167970602754943738700115884043718467399335897527766052528769072071 (2 ^ 256) elg_p = 12084902096822500104542122953305695407436486854855060689712099897529207334704208847385389415705582506754692880117260287506247256744923211473121898600279483015889984637933915225018788247297744234204617917645972644003420638558311026437567544948839507835988556775091407524939361993109131501742274657649972333136289489970403616046132957850774816974532139147419079626052418686235785379054324545635160294599235613031072841546005449263871165531554667691849510384036720232099665993638057012583506721638445039867200938017010047640663702048642800428555878769329869390824433102651295590334470252524439806344816892200129838831591 := by decide

theorem tv2_mu5 : powMod 26407223630816158402031804929906502978789456712653813775417337654247635932022617995318122972253206837324515924045663675210201674785142011989083917477263068123361903950170567174001810960958303550705638766840711688848274729946659739751858962314093644816901052632656142875056361809877190078272332528732675050760712883241259857825838718618748201425572483871890001649638902442432997617546067605595523080302772399447364847783240453826573112217299951622396027991521911746332326049335566213655871283206274337235182931121192621232571932979605107294858084457511456971054526727510511329552549978862138850946742253539790422478087 83538576197828568372478554000709779748291482321305156964826747989759827525996 elg_p = 13569515091937997135257086420265826814763510604626624152347467062046873986298469173473059330991984207195822761976699801273808824045189918457643163035869294148793191672805876291297104849991009673881849533185761788339052481497071265194360605540393215487967869518553946439537841825743054405946926170341102793246976513844343979081035270566915972831069893506940307284015760001202506593914295385798689788276308229011782901818461826771491540249179421889698315970981231247647127227701557254782891606470054201506134908670016268621778654697741586774500727630338353354147895932982925812738155177441002736243273438142254909506422 := by decide

theorem tv2_h5 : (26407223630816158402031804929906502978789456712653813775417337654247635932022617995318122972253206837324515924045663675210201674785142011989083917477263068123361903950170567174001810960958303550705638766840711688848274729946659739751858962314093644816901052632656142875056361809877190078272332528732675050760712883241259857825838718618748201425572483871890001649638902442432997617546067605595523080302772399447364847783240453826573112217299951622396027991521911746332326049335566213655871283206274337235182931121192621232571932979605107294858084457511456971054526727510511329552549978862138850946742253539790422478087 : Nat) ^ 978058928823510610573945576944821055081205593017508797861447666697997365945660885877009874071784455446506165650574626368575484595701836372753643800147690700278564844936144354937371764842317205660328010826853763250837084402182883004310686186184952267512469068443303347400168041869303306036580831336799051194287221774813202317609387748333661871542157648194628848433164694187463307570641426878393227302956220747135623395092017838768297410075830650545508527702425964 % elg_p = 17452703681362419936839205178148046959880167024442765929748374487007200657911043073327670424848020437836587103122505654368843234332765130336677137556819425115769194968272118259814940781650563911972706041906875232373467321512759724158384791123792738131965453742360586451027591745493980670298179233993459755469376233280174469828297175441754491921603488646036300486971662231354188506344083158064958412852842208080826345494590893152394341360239310266424604220810312422287576145062457608758068134070177139598111463596594220484726549263535878179939385698465781217443540016604035353946849420368384510888945304309165293273285 := by
  have step := powMod_chunkStep 26407223630816158402031804929906502978789456712653813775417337654247635932022617995318122972253206837324515924045663675210201674785142011989083917477263068123361903950170567174001810960958303550705638766840711688848274729946659739751858962314093644816901052632656142875056361809877190078272332528732675050760712883241259857825838718618748201425572483871890001649638902442432997617546067605595523080302772399447364847783240453826573112217299951622396027991521911746332326049335566213655871283206274337235182931121192621232571932979605107294858084457511456971054526727510511329552549978862138850946742253539790422478087 elg_p 8446681766134957888886072333770900631707706366087502067445098384217162618550611547683017127261258307774910457762222603385607752813912400344891355543324714626791699794334744107777190649008040087950703917241990527605942049956938867731652573892108496724351938839673217264531845286182582210106821714474916325340763502472795917233136091581868718808865733773496157166683895341176800245350313 83538576197828568372478554000709779748291482321305156964826747989759827525996 20920883974170873102979907092242026960014795255923894771778023349169036369648508569381619669893820330680916216886754659844918016039821992307208982843568016190574340716290793114881573905145561802638872708486710699906688758664533852067870475785761805364732542910752801954382994706840964074551046055391654458699597728306010095399283208005373795470558403623280982074370627929372525134975036357083121583577902813213988232193820289946151329778913506798140300947150913379605591698454558703623869937446210978191204965939509070373899399723894176739234965565009167970602754943738700115884043718467399335897527766052528769072071 12084902096822500104542122953305695407436486854855060689712099897529207334704208847385389415705582506754692880117260287506247256744923211473121898600279483015889984637933915225018788247297744234204617917645972644003420638558311026437567544948839507835988556775091407524939361993109131501742274657649972333136289489970403616046132957850774816974532139147419079626052418686235785379054324545635160294599235613031072841546005449263871165531554667691849510384036720232099665993638057012583506721638445039867200938017010047640663702048642800428555878769329869390824433102651295590334470252524439806344816892200129838831591 13569515091937997135257086420265826814763510604626624152347467062046873986298469173473059330991984207195822761976699801273808824045189918457643163035869294148793191672805876291297104849991009673881849533185761788339052481497071265194360605540393215487967869518553946439537841825743054405946926170341102793246976513844343979081035270566915972831069893506940307284015760001202506593914295385798689788276308229011782901818461826771491540249179421889698315970981231247647127227701557254782891606470054201506134908670016268621778654697741586774500727630338353354147895932982925812738155177441002736243273438142254909506422 17452703681362419936839205178148046959880167024442765929748374487007200657911043073327670424848020437836587103122505654368843234332765130336677137556819425115769194968272118259814940781650563911972706041906875232373467321512759724158384791123792738131965453742360586451027591745493980670298179233993459755469376233280174469828297175441754491921603488646036300486971662231354188506344083158064958412852842208080826345494590893152394341360239310266424604220810312422287576145062457608758068134070177139598111463596594220484726549263535878179939385698465781217443540016604035353946849420368384510888945304309165293273285
    (by decide) (by decide)
    tv2_h4
    tv2_sq5 tv2_mu5 (by decide)
  have harg : (8446681766134957888886072333770900631707706366087502067445098384217162618550611547683017127261258307774910457762222603385607752813912400344891355543324714626791699794334744107777190649008040087950703917241990527605942049956938867731652573892108496724351938839673217264531845286182582210106821714474916325340763502472795917233136091581868718808865733773496157166683895341176800245350313 : Nat) * 2 ^ 256 + 83538576197828568372478554000709779748291482321305156964826747989759827525996 = 978058928823510610573945576944821055081205593017508797861447666697997365945660885877009874071784455446506165650574626368575484595701836372753643800147690700278564844936144354937371764842317205660328010826853763250837084402182883004310686186184952267512469068443303347400168041869303306036580831336799051194287221774813202317609387748333661871542157648194628848433164694187463307570641426878393227302956220747135623395092017838768297410075830650545508527702425964 := by decide
  rw [harg] at step
  exact step

theorem tv2_sq6 : powMod 17452703681362419936839205178148046959880167024442765929748374487007200657911043073327670424848020437836587103122505654368843234332765130336677137556819425115769194968272118259814940781650563911972706041906875232373467321512759724158384791123792738131965453742360586451027591745493980670298179233993459755469376233280174469828297175441754491921603488646036300486971662231354188506344083158064958412852842208080826345494590893152394341360239310266424604220810312422287576145062457608758068134070177139598111463596594220484726549263535878179939385698465781217443540016604035353946849420368384510888945304309165293273285 (2 ^ 256) elg_p = 1040448089013131395004034461297523346929865542426670402791050865808446400853321094372559689141425902960510978722082340722491790209585625730465562208188444190674086355758018262785164054872753976348404414688066608890320469714448282719337106221711478541617774030896500092126176149426766519572888537499104344755446158611563294280386425503100321222593024814799661678966806135054878049745034335501495775800986124134924712173985507874739069458467252620113603178295932625385403900532129325626665211628185808624723596025417332786999840373845356609022708377618852667086302154146250395676573765644322159607390117324708558739313 := by decide

theorem tv2_mu6 : powMod 26407223630816158402031804929906502978789456712653813775417337654247635932022617995318122972253206837324515924045663675210201674785142011989083917477263068123361903950170567174001810960958303550705638766840711688848274729946659739751858962314093644816901052632656142875056361809877190078272332528732675050760712883241259857825838718618748201425572483871890001649638902442432997617546067605595523080302772399447364847783240453826573112217299951622396027991521911746332326049335566213655871283206274337235182931121192621232571932979605107294858084457511456971054526727510511329552549978862138850946742253539790422478087 21424801932624814297081339575403176970773882566529889558944205132078398896742 elg_p = 21531441372513477537522379841408047183577878941681999577671149930070785412941228285937775873647316941635239079650299277044529907123894757292674444532386165488622363713460120852501135502097407724415549601454289985899264389802338077986708054265545029640510153611855413479021320213781234121633336498200230610543914273523580091490392818033559969574456831127032913962044709349593702169179271273778543242077475407335371616817097665724175125271270990033608835517408512945173953008460522761541256398205624146599300403725879401202598345052832973442868197156595779328397072919561183252989715417646554735675034221901107650006447 := by decide

theorem tv2_h6 : (26407223630816158402031804929906502978789456712653813775417337654247635932022617995318122972253206837324515924045663675210201674785142011989083917477263068123361903950170567174001810960958303550705638766840711688848274729946659739751858962314093644816901052632656142875056361809877190078272332528732675050760712883241259857825838718618748201425572483871890001649638902442432997617546067605595523080302772399447364847783240453826573112217299951622396027991521911746332326049335566213655871283206274337235182931121192621232571932979605107294858084457511456971054526727510511329552549978862138850946742253539790422478087 : Nat) ^ 113251486765685829800471395848603164484105668162158819927103046546509386253847352206021108654361546444488373433828440759019965200171896413758683127409937243626050552901999132480727474342178804291409254221471048837366417852231672788407914238136737778189100822270410164220959037954485747547795752263016880389763387202728784507045412008034246689241384043898479646224634680389126689361322555218657027925778859754787035078430764097310302388688634856857285875714464587379941813894614165517274278312262088530890069100475677575055096581939416595046 % elg_p = 5588495869929298329654963088872090899085453557294764023951498788676048984600283462205182606067979601158707497045856924441741328340288189652457027980426731578910969547520692789179599320966907767693065186932645639226649290660199846489842463523433789845291348658026979738927649997436340879649916213336441584858394280935820679766500683506187123641036765885475781852546561597598148457927314115750075811784414157687821401762354195707720004700523870382590893015783766609203896084886876150191203548187809757681693130915805613497245396690036172074397864727384709789350348447049254184328556318735825992412781647861230148657052 := by
  have step := powMod_chunkStep 26407223630816158402031804929906502978789456712653813775417337654247635932022617995318122972253206837324515924045663675210201674785142011989083917477263068123361903950170567174001810960958303550705638766840711688848274729946659739751858962314093644816901052632656142875056361809877190078272332528732675050760712883241259857825838718618748201425572483871890001649638902442432997617546067605595523080302772399447364847783240453826573112217299951622396027991521911746332326049335566213655871283206274337235182931121192621232571932979605107294858084457511456971054526727510511329552549978862138850946742253539790422478087 elg_p 978058928823510610573945576944821055081205593017508797861447666697997365945660885877009874071784455446506165650574626368575484595701836372753643800147690700278564844936144354937371764842317205660328010826853763250837084402182883004310686186184952267512469068443303347400168041869303306036580831336799051194287221774813202317609387748333661871542157648194628848433164694187463307570641426878393227302956220747135623395092017838768297410075830650545508527702425964 21424801932624814297081339575403176970773882566529889558944205132078398896742 17452703681362419936839205178148046959880167024442765929748374487007200657911043073327670424848020437836587103122505654368843234332765130336677137556819425115769194968272118259814940781650563911972706041906875232373467321512759724158384791123792738131965453742360586451027591745493980670298179233993459755469376233280174469828297175441754491921603488646036300486971662231354188506344083158064958412852842208080826345494590893152394341360239310266424604220810312422287576145062457608758068134070177139598111463596594220484726549263535878179939385698465781217443540016604035353946849420368384510888945304309165293273285 1040448089013131395004034461297523346929865542426670402791050865808446400853321094372559689141425902960510978722082340722491790209585625730465562208188444190674086355758018262785164054872753976348404414688066608890320469714448282719337106221711478541617774030896500092126176149426766519572888537499104344755446158611563294280386425503100321222593024814799661678966806135054878049745034335501495775800986124134924712173985507874739069458467252620113603178295932625385403900532129325626665211628185808624723596025417332786999840373845356609022708377618852667086302154146250395676573765644322159607390117324708558739313 21531441372513477537522379841408047183577878941681999577671149930070785412941228285937775873647316941635239079650299277044529907123894757292674444532386165488622363713460120852501135502097407724415549601454289985899264389802338077986708054265545029640510153611855413479021320213781234121633336498200230610543914273523580091490392818033559969574456831127032913962044709349593702169179271273778543242077475407335371616817097665724175125271270990033608835517408512945173953008460522761541256398205624146599300403725879401202598345052832973442868197156595779328397072919561183252989715417646554735675034221901107650006447 5588495869929298329654963088872090899085453557294764023951498788676048984600283462205182606067979601158707497045856924441741328340288189652457027980426731578910969547520692789179599320966907767693065186932645639226649290660199846489842463523433789845291348658026979738927649997436340879649916213336441584858394280935820679766500683506187123641036765885475781852546561597598148457927314115750075811784414157687821401762354195707720004700523870382590893015783766609203896084886876150191203548187809757681693130915805613497245396690036172074397864727384709789350348447049254184328556318735825992412781647861230148657052
    (by decide) (by decide)
    tv2_h5
    tv2_sq6 tv2_mu6 (by decide)
  have harg : (978058928823510610573945576944821055081205593017508797861447666697997365945660885877009874071784455446506165650574626368575484595701836372753643800147690700278564844936144354937371764842317205660328010826853763250837084402182883004310686186184952267512469068443303347400168041869303306036580831336799051194287221774813202317609387748333661871542157648194628848433164694187463307570641426878393227302956220747135623395092017838768297410075830650545508527702425964 : Nat) * 2 ^ 256 + 21424801932624814297081339575403176970773882566529889558944205132078398896742 = 113251486765685829800471395848603164484105668162158819927103046546509386253847352206021108654361546444488373433828440759019965200171896413758683127409937243626050552901999132480727474342178804291409254221471048837366417852231672788407914238136737778189100822270410164220959037954485747547795752263016880389763387202728784507045412008034246689241384043898479646224634680389126689361322555218657027925778859754787035078430764097310302388688634856857285875714464587379941813894614165517274278312262088530890069100475677575055096581939416595046 := by decide
  rw [harg] at step
  exact step

theorem tv2_sq7 : powMod 5588495869929298329654963088872090899085453557294764023951498788676048984600283462205182606067979601158707497045856924441741328340288189652457027980426731578910969547520692789179599320966907767693065186932645639226649290660199846489842463523433789845291348658026979738927649997436340879649916213336441584858394280935820679766500683506187123641036765885475781852546561597598148457927314115750075811784414157687821401762354195707720004700523870382590893015783766609203896084886876150191203548187809757681693130915805613497245396690036172074397864727384709789350348447049254184328556318735825992412781647861230148657052 (2 ^ 256) elg_p = 11529870153499937798692523515686613319284497856165213776006821263963245794609379299343354921001220767699766607917827576625105766721715214833564794980843061283710809939348951504074298391558993515364785566058370833881789256039361495390710772495207740818254307556504827427494968169429103885283117127527685269198484541555321677603272929754167069840558446972321279879210054050857857837877947943534145399481575869508034997644653070352092029173722065275805894842181651995730058351189898428140828330618190845082816743376670837734246271043873513941145041622450730438205097892984909308580993279469815530034022227883513270122580 := by decide

theorem tv2_mu7 : powMod 26407223630816158402031804929906502978789456712653813775417337654247635932022617995318122972253206837324515924045663675210201674785142011989083917477263068123361903950170567174001810960958303550705638766840711688848274729946659739751858962314093644816901052632656142875056361809877190078272332528732675050760712883241259857825838718618748201425572483871890001649638902442432997617546067605595523080302772399447364847783240453826573112217299951622396027991521911746332326049335566213655871283206274337235182931121192621232571932979605107294858084457511456971054526727510511329552549978862138850946742253539790422478087 71936186156835850558598724281782442907297879837369054666216808553265444665019 elg_p = 15608584167462025834413166610276470956066232606485017551415488627622535009343020583603587643018858868756675776091738638702323274292850132999124591571083283556327971635827559542307979500886216263077756866408160590992896852058900512929375704100803308303202049870608648185041370602226280924119285051043536838274068817067057529658685861564734506007861474384349193775036265544848023028323960350518289354383213397143177417046976193374481780787710149942553990808868166169270589187778120938733396123895730009924673372709314242741830967050613058541239379309228109409955924548975434194500918043378589982164791822177681210847843 := by decide

theorem tv2_h7 : (26407223630816158402031804929906502978789456712653813775417337654247635932022617995318122972253206837324515924045663675210201674785142011989083917477263068123361903950170567174001810960958303550705638766840711688848274729946659739751858962314093644816901052632656142875056361809877190078272332528732675050760712883241259857825838718618748201425572483871890001649638902442432997617546067605595523080302772399447364847783240453826573112217299951622396027991521911746332326049335566213655871283206274337235182931121192621232571932979605107294858084457511456971054526727510511329552549978862138850946742253539790422478087 : Nat) ^ 13113626261831027715590497606761098627148627933924076225146001465614380601780581912846591297008894353029070346039412043729896008126826655734107275680704088052750022209287528083303868206689481688281049917877747150332076876652149889041693288931533211840375439326540430595010649361915975113322961048500319782639084024081552085051862471001452676852334405301477572482893963356523980782029376930535092800391283134011072273699358174486678534542269101358839599221314391312922851122838011659924269620569790253465354755663754941865402416230302423668618118768791622537766469665954573655065709207025194239491705633875522546022075 % elg_p = 21999682174780532602650793374297585006571319560250442637853669772169946388730041523099985424095302074313730438138765641484139265913711912342036666804188395767024585804741104644440068809127523003723645882229418277522924681508539409319839312263089476551646429884669658896805103098285539385530191040227898209295377562798515837405089151824783082748054965172417917620241474557005990208421829335461752266526494296069934230268712942930160624037266274150529874457051909877226138485154621803937755900029955788595488342341317597017285316792802349970009365213759968587443966496303124202602321274607905301863096302891285835175645 := by
  have step := powMod_chunkStep 26407223630816158402031804929906502978789456712653813775417337654247635932022617995318122972253206837324515924045663675210201674785142011989083917477263068123361903950170567174001810960958303550705638766840711688848274729946659739751858962314093644816901052632656142875056361809877190078272332528732675050760712883241259857825838718618748201425572483871890001649638902442432997617546067605595523080302772399447364847783240453826573112217299951622396027991521911746332326049335566213655871283206274337235182931121192621232571932979605107294858084457511456971054526727510511329552549978862138850946742253539790422478087 elg_p 113251486765685829800471395848603164484105668162158819927103046546509386253847352206021108654361546444488373433828440759019965200171896413758683127409937243626050552901999132480727474342178804291409254221471048837366417852231672788407914238136737778189100822270410164220959037954485747547795752263016880389763387202728784507045412008034246689241384043898479646224634680389126689361322555218657027925778859754787035078430764097310302388688634856857285875714464587379941813894614165517274278312262088530890069100475677575055096581939416595046 71936186156835850558598724281782442907297879837369054666216808553265444665019 5588495869929298329654963088872090899085453557294764023951498788676048984600283462205182606067979601158707497045856924441741328340288189652457027980426731578910969547520692789179599320966907767693065186932645639226649290660199846489842463523433789845291348658026979738927649997436340879649916213336441584858394280935820679766500683506187123641036765885475781852546561597598148457927314115750075811784414157687821401762354195707720004700523870382590893015783766609203896084886876150191203548187809757681693130915805613497245396690036172074397864727384709789350348447049254184328556318735825992412781647861230148657052 11529870153499937798692523515686613319284497856165213776006821263963245794609379299343354921001220767699766607917827576625105766721715214833564794980843061283710809939348951504074298391558993515364785566058370833881789256039361495390710772495207740818254307556504827427494968169429103885283117127527685269198484541555321677603272929754167069840558446972321279879210054050857857837877947943534145399481575869508034997644653070352092029173722065275805894842181651995730058351189898428140828330618190845082816743376670837734246271043873513941145041622450730438205097892984909308580993279469815530034022227883513270122580 15608584167462025834413166610276470956066232606485017551415488627622535009343020583603587643018858868756675776091738638702323274292850132999124591571083283556327971635827559542307979500886216263077756866408160590992896852058900512929375704100803308303202049870608648185041370602226280924119285051043536838274068817067057529658685861564734506007861474384349193775036265544848023028323960350518289354383213397143177417046976193374481780787710149942553990808868166169270589187778120938733396123895730009924673372709314242741830967050613058541239379309228109409955924548975434194500918043378589982164791822177681210847843 21999682174780532602650793374297585006571319560250442637853669772169946388730041523099985424095302074313730438138765641484139265913711912342036666804188395767024585804741104644440068809127523003723645882229418277522924681508539409319839312263089476551646429884669658896805103098285539385530191040227898209295377562798515837405089151824783082748054965172417917620241474557005990208421829335461752266526494296069934230268712942930160624037266274150529874457051909877226138485154621803937755900029955788595488342341317597017285316792802349970009365213759968587443966496303124202602321274607905301863096302891285835175645
    (by decide) (by decide)
    tv2_h6
    tv2_sq7 tv2_mu7 (by decide)
  have harg : (113251486765685829800471395848603164484105668162158819927103046546509386253847352206021108654361546444488373433828440759019965200171896413758683127409937243626050552901999132480727474342178804291409254221471048837366417852231672788407914238136737778189100822270410164220959037954485747547795752263016880389763387202728784507045412008034246689241384043898479646224634680389126689361322555218657027925778859754787035078430764097310302388688634856857285875714464587379941813894614165517274278312262088530890069100475677575055096581939416595046 : Nat) * 2 ^ 256 + 71936186156835850558598724281782442907297879837369054666216808553265444665019 = 13113626261831027715590497606761098627148627933924076225146001465614380601780581912846591297008894353029070346039412043729896008126826655734107275680704088052750022209287528083303868206689481688281049917877747150332076876652149889041693288931533211840375439326540430595010649361915975113322961048500319782639084024081552085051862471001452676852334405301477572482893963356523980782029376930535092800391283134011072273699358174486678534542269101358839599221314391312922851122838011659924269620569790253465354755663754941865402416230302423668618118768791622537766469665954573655065709207025194239491705633875522546022075 := by decide
  rw [harg] at step
  exact step

theorem tv2_shared : powMod (fromBytesBE tvPeer2) tvPriv2 elg_p = 21999682174780532602650793374297585006571319560250442637853669772169946388730041523099985424095302074313730438138765641484139265913711912342036666804188395767024585804741104644440068809127523003723645882229418277522924681508539409319839312263089476551646429884669658896805103098285539385530191040227898209295377562798515837405089151824783082748054965172417917620241474557005990208421829335461752266526494296069934230268712942930160624037266274150529874457051909877226138485154621803937755900029955788595488342341317597017285316792802349970009365213759968587443966496303124202602321274607905301863096302891285835175645 := by
  have hB : fromBytesBE tvPeer2 = 26407223630816158402031804929906502978789456712653813775417337654247635932022617995318122972253206837324515924045663675210201674785142011989083917477263068123361903950170567174001810960958303550705638766840711688848274729946659739751858962314093644816901052632656142875056361809877190078272332528732675050760712883241259857825838718618748201425572483871890001649638902442432997617546067605595523080302772399447364847783240453826573112217299951622396027991521911746332326049335566213655871283206274337235182931121192621232571932979605107294858084457511456971054526727510511329552549978862138850946742253539790422478087 := by decide
  have hE : tvPriv2 = 13113626261831027715590497606761098627148627933924076225146001465614380601780581912846591297008894353029070346039412043729896008126826655734107275680704088052750022209287528083303868206689481688281049917877747150332076876652149889041693288931533211840375439326540430595010649361915975113322961048500319782639084024081552085051862471001452676852334405301477572482893963356523980782029376930535092800391283134011072273699358174486678534542269101358839599221314391312922851122838011659924269620569790253465354755663754941865402416230302423668618118768791622537766469665954573655065709207025194239491705633875522546022075 := by decide
  rw [hB, hE, powMod_correct 26407223630816158402031804929906502978789456712653813775417337654247635932022617995318122972253206837324515924045663675210201674785142011989083917477263068123361903950170567174001810960958303550705638766840711688848274729946659739751858962314093644816901052632656142875056361809877190078272332528732675050760712883241259857825838718618748201425572483871890001649638902442432997617546067605595523080302772399447364847783240453826573112217299951622396027991521911746332326049335566213655871283206274337235182931121192621232571932979605107294858084457511456971054526727510511329552549978862138850946742253539790422478087 13113626261831027715590497606761098627148627933924076225146001465614380601780581912846591297008894353029070346039412043729896008126826655734107275680704088052750022209287528083303868206689481688281049917877747150332076876652149889041693288931533211840375439326540430595010649361915975113322961048500319782639084024081552085051862471001452676852334405301477572482893963356523980782029376930535092800391283134011072273699358174486678534542269101358839599221314391312922851122838011659924269620569790253465354755663754941865402416230302423668618118768791622537766469665954573655065709207025194239491705633875522546022075 elg_p (by decide) (by rw [pow2_4096_eq]; decide)]
  exact tv2_h7


theorem tv1_key :
    (DHSessionKeyBuilder.mk tvPriv1 (fromBytesBE tvPub1)).build_session_key tvPeer1 = tvKey1 := by
  show serializeShared (powMod (fromBytesBE tvPeer1) tvPriv1 elg_p) = tvKey1
  rw [tv1_shared]
  decide

theorem tv2_key :
    (DHSessionKeyBuilder.mk tvPriv2 (fromBytesBE tvPub2)).build_session_key tvPeer2 = tvKey2 := by
  show serializeShared (powMod (fromBytesBE tvPeer2) tvPriv2 elg_p) = tvKey2
  rw [tv2_shared]
  decide

/-! ### Agreement of the code's serialization with the spec's rule -/

theorem and128_ne_iff (a : Nat) (ha : a < 256) : a &&& 128 ≠ 0 ↔ 128 ≤ a := by
  interval_cases a <;> decide

theorem elg_p_pos : 0 < elg_p := by decide

theorem serializeShared_eq_spec (s : Nat) :
    serializeShared s = sessionKeyOfShared s := by
  have hlt : (natToBytesBE s).headD 0 < 256 := by
    cases h : natToBytesBE s with
    | nil => simp
    | cons x xs =>
        simpa using natToBytesBE_bytes_lt s x (by rw [h]; exact List.mem_cons_self x xs)
  have hiff : ((natToBytesBE s).headD 0 &&& 128 ≠ 0) ↔ (128 ≤ (natToBytesBE s).headD 0) :=
    and128_ne_iff _ hlt
  unfold serializeShared sessionKeyOfShared
  simp only [hiff]

theorem serializeShared_length (s : Nat) : (serializeShared s).length = 32 := by
  simp only [serializeShared]
  split
  all_goals split
  all_goals
    simp_all only [List.length_take, List.length_append, List.length_replicate,
      List.length_cons, not_lt]
  all_goals omega

theorem be16_length (n : Nat) : (be16 n).length = 2 := rfl

theorem be32_length (n : Nat) : (be32 n).length = 4 := rfl

theorem adler32_length (l : List Nat) : (adler32 l).length = 4 := rfl

/-- Every serialized established-session frame is a whole number of AES
blocks and at least one block long. -/
theorem serializeFrame_blocks (f : Frame) :
    (serializeFrame f).length % 16 = 0 ∧ 16 ≤ (serializeFrame f).length := by
  have hlen : ∀ body : List Nat,
      (body ++ List.replicate ((16 - (body.length + 4) % 16) % 16) 0 ++ adler32 body).length
        = body.length + (16 - (body.length + 4) % 16) % 16 + 4 := by
    intro body
    simp [List.length_append, List.length_replicate, adler32_length]
    omega
  cases f with
  | standard m =>
      simp only [serializeFrame, hlen]
      constructor
      · omega
      · omega
  | timeSync ts =>
      simp only [serializeFrame, hlen]
      constructor
      · omega
      · omega

/-! ### Claim theorems -/

/-- C1: for every `DHSessionKeyBuilder` and every 256-byte peer public value,
`build_session_key` serializes the shared secret `peer ^ priv mod P` by the
reference rule — big-endian bytes, a `0x00` prepended when the top byte's
high bit is set, `0x00` bytes appended on the right up to 32 bytes, first
32 bytes kept — and the two literal test vectors produce exactly the
documented 32-byte session keys. -/
theorem claim_build_session_key :
    (∀ (b : DHSessionKeyBuilder) (peer_pub : List Nat),
        b.dh_priv < 2 ^ 2048 →
          b.build_session_key peer_pub
              = sessionKeyOfShared (fromBytesBE peer_pub ^ b.dh_priv % elg_p)
            ∧ (b.build_session_key peer_pub).length = 32)
      ∧ (DHSessionKeyBuilder.mk tvPriv1 (fromBytesBE tvPub1)).build_session_key tvPeer1 = tvKey1
      ∧ (DHSessionKeyBuilder.mk tvPriv2 (fromBytesBE tvPub2)).build_session_key tvPeer2 = tvKey2 := by
  refine ⟨?_, tv1_key, tv2_key⟩
  intro b peer_pub hb
  constructor
  · show serializeShared (powMod (fromBytesBE peer_pub) b.dh_priv elg_p) = _
    rw [powMod_correct _ _ _ elg_p_pos
      (lt_of_lt_of_le hb (Nat.pow_le_pow_right (by norm_num) (by norm_num)))]
    exact serializeShared_eq_spec _
  · exact serializeShared_length _

/-- Witness for C1: the first test vector's private scalar satisfies the
size hypothesis, and the claim theorem applies to it. -/
theorem claim_build_session_key_witness :
    tvPriv1 < 2 ^ 2048
      ∧ ((DHSessionKeyBuilder.mk tvPriv1 (fromBytesBE tvPub1)).build_session_key tvPeer1).length
          = 32 :=
  ⟨by rw [pow2_2048_eq]; decide,
   (claim_build_session_key.1 (DHSessionKeyBuilder.mk tvPriv1 (fromBytesBE tvPub1)) tvPeer1
      (by rw [pow2_2048_eq]; decide)).2⟩

/-- C8: `get_pub` returns exactly 256 bytes: the big-endian representation of
`dh_pub` left-padded with zero bytes, and that byte string still denotes
`dh_pub`. -/
theorem claim_get_pub :
    ∀ (b : DHSessionKeyBuilder), b.dh_pub < 2 ^ 2048 →
      b.get_pub.length = 256
        ∧ b.get_pub
            = List.replicate (256 - (natToBytesBE b.dh_pub).length) 0 ++ natToBytesBE b.dh_pub
        ∧ fromBytesBE b.get_pub = b.dh_pub := by
  intro b hb
  have h256 : (256 : Nat) ^ 256 = 2 ^ 2048 := by norm_num
  have hb' : b.dh_pub < 256 ^ 256 := by rw [h256]; exact hb
  have hlen : (natToBytesBE b.dh_pub).length ≤ 256 :=
    natToBytesBE_length _ 256 (by norm_num) (by norm_num) hb'
  refine ⟨?_, rfl, ?_⟩
  · show (List.replicate (256 - (natToBytesBE b.dh_pub).length) 0
        ++ natToBytesBE b.dh_pub).length = 256
    simp only [List.length_append, List.length_replicate]
    omega
  · show fromBytesBE (List.replicate (256 - (natToBytesBE b.dh_pub).length) 0
        ++ natToBytesBE b.dh_pub) = b.dh_pub
    rw [fromBytesBE_replicate_zero_append]
    exact fromBytesBE_natToBytesBE _
      (lt_of_lt_of_le hb'
        (Nat.pow_le_pow_right (by norm_num) (by norm_num)))

/-- Witness for C8: the first test vector's public value satisfies the size
hypothesis and the claim theorem applies to it. -/
theorem claim_get_pub_witness :
    fromBytesBE tvPub1 < 2 ^ 2048
      ∧ (DHSessionKeyBuilder.mk tvPriv1 (fromBytesBE tvPub1)).get_pub.length = 256 :=
  ⟨by rw [pow2_2048_eq]; decide,
   (claim_get_pub (DHSessionKeyBuilder.mk tvPriv1 (fromBytesBE tvPub1))
      (by rw [pow2_2048_eq]; decide)).1⟩

/-- C2: `Manager::send` queries a bid from each transport (`ntcp` with
`msg.size()`, `ntcp2` with `msg.ntcp2_size()`), discards `None` bids, sends
via the minimum-cost bid with ties broken in enumeration order (`ntcp`
before `ntcp2`), and hands `(hash, msg)` back unchanged when neither
transport bids. -/
theorem claim_manager_send :
    ∀ (m : Manager) (hash : Hash) (msg : Message),
      (m.ntcpBid hash msg.size = none → m.ntcp2Bid hash msg.ntcp2_size = none →
          m.send hash msg = .error (hash, msg))
        ∧ (∀ c1, m.ntcpBid hash msg.size = some c1 →
            m.ntcp2Bid hash msg.ntcp2_size = none →
              m.send hash msg = .ok (.ntcp, c1))
        ∧ (∀ c2, m.ntcpBid hash msg.size = none →
            m.ntcp2Bid hash msg.ntcp2_size = some c2 →
              m.send hash msg = .ok (.ntcp2, c2))
        ∧ (∀ c1 c2, m.ntcpBid hash msg.size = some c1 →
            m.ntcp2Bid hash msg.ntcp2_size = some c2 →
              m.send hash msg = .ok (if c2 < c1 then (.ntcp2, c2) else (.ntcp, c1))) := by
  intro m hash msg
  refine ⟨fun h1 h2 => ?_, fun c1 h1 h2 => ?_, fun c2 h1 h2 => ?_, fun c1 c2 h1 h2 => ?_⟩
  · simp [Manager.send, minByKeyFirst, h1, h2]
  · simp [Manager.send, minByKeyFirst, h1, h2]
  · simp [Manager.send, minByKeyFirst, h1, h2]
  · by_cases hc : c2 < c1 <;> simp [Manager.send, minByKeyFirst, h1, h2, hc]

/-- Witness for C2: the spec's own example — `ntcp` bids 5, `ntcp2` bids 3 —
delivers via `ntcp2`, by the claim theorem. -/
theorem claim_manager_send_witness :
    (Manager.new (fun _ _ => some 5) (fun _ _ => some 3)).send
        (List.replicate 32 0) (Message.mk [] 0)
      = .ok (.ntcp2, 3) := by
  have h := (claim_manager_send (Manager.new (fun _ _ => some 5) (fun _ _ => some 3))
    (List.replicate 32 0) (Message.mk [] 0)).2.2.2 5 3 rfl rfl
  simpa using h

/-- C9: `Manager::start` may be called at most once — the first call
consumes the internal engine, and a second call hits the
`"Cannot call listen() twice"` panic. -/
theorem claim_manager_start :
    ∀ (m : Manager) (engine : Engine), m.engine = some engine →
      m.start = .ok ({ m with engine := none }, engine)
        ∧ ({ m with engine := none } : Manager).start
            = .error "Cannot call listen() twice" := by
  intro m engine h
  constructor
  · simp [Manager.start, h]
  · simp [Manager.start]

/-- C3: in state `SessionCreated`, a received message 2 whose hash field
differs from the digest of the first 512 bytes of the to-be-signed buffer
(exactly `dh_x ‖ dh_y`) makes `handle_frame` return an `InvalidData` error
and a state that is still `SessionCreated` — no session is established. -/
theorem claim_msg2_hash_check :
    ∀ (c : CryptoModel) (now_ms : Nat) (shared : SharedHandshakeState) (sc : SessionCreated)
      (shared' : SharedHandshakeState),
      shared' = { shared with
                  dh_y := sc.dh_y
                  ts_a := (now_ms + 500) / 1000 % 2 ^ 32
                  ts_b := sc.ts_b } →
      shared.dh_x.length = 256 → sc.dh_y.length = 256 →
      ((gen_session_confirm_sig_msg shared' false).take 512 = shared.dh_x ++ sc.dh_y)
        ∧ (c.digest ((gen_session_confirm_sig_msg shared' false).take 512) ≠ sc.hash →
            OBHandshakeState.handle_frame c now_ms (.sessionCreated shared) (.sessionCreated sc)
                = (.error { kind := .invalidData, msg := "Invalid SessionCreated hash" },
                   .sessionCreated shared')
              ∧ (OBHandshakeState.handle_frame c now_ms (.sessionCreated shared)
                    (.sessionCreated sc)).2.is_established = false) := by
  intro c now_ms shared sc shared' hs h1 h2
  subst hs
  have htake : (gen_session_confirm_sig_msg
      { shared with dh_y := sc.dh_y, ts_a := (now_ms + 500) / 1000 % 2 ^ 32, ts_b := sc.ts_b }
      false).take 512 = shared.dh_x ++ sc.dh_y := by
    show (shared.dh_x ++ sc.dh_y
        ++ (if false = true then shared.own_ri else shared.ri_remote).serialized
        ++ be32 ((now_ms + 500) / 1000 % 2 ^ 32) ++ be32 sc.ts_b).take 512
      = shared.dh_x ++ sc.dh_y
    rw [List.append_assoc (shared.dh_x ++ sc.dh_y ++ _),
      List.append_assoc (shared.dh_x ++ sc.dh_y)]
    exact List.take_left' (by simp [h1, h2])
  refine ⟨htake, fun hmis => ⟨?_, ?_⟩⟩
  · simp only [OBHandshakeState.handle_frame]
    rw [if_pos hmis]
  · simp only [OBHandshakeState.handle_frame]
    rw [if_pos hmis]
    rfl

/-- Witness for C3: the sample message 2 `wSC` has a mismatching hash field,
and the claim theorem applies, so no session is established. -/
theorem claim_msg2_hash_check_witness :
    wShared.dh_x.length = 256
      ∧ (OBHandshakeState.handle_frame wCrypto 0 (.sessionCreated wShared)
            (.sessionCreated wSC)).2.is_established = false :=
  ⟨by decide,
   ((claim_msg2_hash_check wCrypto 0 wShared wSC _ rfl (by decide) (by decide)).2
      (by decide)).2⟩

/-- C4: in state `SessionConfirmB`, a received message 4 is accepted exactly
when the peer's signature verifies over the tuple computed with the
initiator's own identity; failure gives `ConnectionRefused` and keeps the
state at `SessionConfirmB`, success transitions to `Established`. -/
theorem claim_msg4_signature :
    ∀ (c : CryptoModel) (now_ms : Nat) (shared : SharedHandshakeState) (scb : SessionConfirmB),
      OBHandshakeState.handle_frame c now_ms (.sessionConfirmB shared) (.sessionConfirmB scb)
        = if c.verify shared.ri_remote.signing_key
              (gen_session_confirm_sig_msg shared true) scb.sig
          then (.ok (), .established shared)
          else (.error { kind := .connectionRefused, msg := "Invalid SessionConfirmB signature" },
                .sessionConfirmB shared) := by
  intro c now_ms shared scb
  simp only [OBHandshakeState.handle_frame]
  by_cases hv : c.verify shared.ri_remote.signing_key
      (gen_session_confirm_sig_msg shared true) scb.sig
  · simp [hv]
  · simp [hv]

/-- C10 (amended): every error from `handle_frame` keeps the state-machine
position; unexpected `(state, frame)` pairs give exactly
`InvalidData "Unexpected handshake frame"` with the input state returned
unchanged; a failed message-4 signature returns the input state unchanged.
(The message-2 hash-mismatch error path, by contrast, returns a
`SessionCreated` state whose shared data was already updated with the
received `dh_y`, `ts_a`, `ts_b` — see the counterexample.) -/
theorem claim_handle_frame_on_error :
    ∀ (c : CryptoModel) (now_ms : Nat) (s : OBHandshakeState) (f : HandshakeFrame),
      (∀ e, (OBHandshakeState.handle_frame c now_ms s f).1 = .error e →
          (OBHandshakeState.handle_frame c now_ms s f).2.tag = s.tag)
        ∧ (OBHandshakeState.isExpectedPair s f = false →
            OBHandshakeState.handle_frame c now_ms s f
              = (.error { kind := .invalidData, msg := "Unexpected handshake frame" }, s))
        ∧ (∀ shared scb, s = OBHandshakeState.sessionConfirmB shared →
            f = HandshakeFrame.sessionConfirmB scb →
            c.verify shared.ri_remote.signing_key
                (gen_session_confirm_sig_msg shared true) scb.sig = false →
            OBHandshakeState.handle_frame c now_ms s f
              = (.error { kind := .connectionRefused,
                          msg := "Invalid SessionConfirmB signature" }, s)) := by
  intro c now_ms s f
  refine ⟨?_, ?_, ?_⟩
  · intro e herr
    cases s <;> cases f <;>
      simp_all only [OBHandshakeState.handle_frame, OBHandshakeState.tag] <;>
      split at herr <;> simp_all [OBHandshakeState.tag]
  · intro hunex
    cases s <;> cases f <;>
      simp_all [OBHandshakeState.handle_frame, OBHandshakeState.isExpectedPair]
  · intro shared scb hs hf hv
    subst hs
    subst hf
    simp [OBHandshakeState.handle_frame, hv]

/-- Witness for C10's amended theorem: an unexpected pair — message 4 in
state `SessionRequest` — returns the exact error and the untouched state. -/
theorem claim_handle_frame_on_error_witness :
    OBHandshakeState.isExpectedPair (.sessionRequest wShared (List.replicate 32 8))
        (.sessionConfirmB { sig := [] }) = false
      ∧ OBHandshakeState.handle_frame wCrypto 0
            (.sessionRequest wShared (List.replicate 32 8)) (.sessionConfirmB { sig := [] })
          = (.error { kind := .invalidData, msg := "Unexpected handshake frame" },
             .sessionRequest wShared (List.replicate 32 8)) :=
  ⟨by decide,
   (claim_handle_frame_on_error wCrypto 0
      (.sessionRequest wShared (List.replicate 32 8)) (.sessionConfirmB { sig := [] })).2.1
     (by decide)⟩

/-- Counterexample for C10 as stated: at the message-2 hash-mismatch error,
the returned state machine value is *not* the state that was passed in —
`handle_frame` had already stored the received `dh_y`, `ts_a`, `ts_b` into
the shared state before the check. -/
theorem claim_handle_frame_cex :
    (OBHandshakeState.handle_frame wCrypto 0 (.sessionCreated wShared)
          (.sessionCreated wSC)).1
        = .error { kind := .invalidData, msg := "Invalid SessionCreated hash" }
      ∧ (OBHandshakeState.handle_frame wCrypto 0 (.sessionCreated wShared)
            (.sessionCreated wSC)).2
          ≠ OBHandshakeState.sessionCreated wShared := by
  decide

/-- C5 (amended): the outbound initiator's encrypt-side IV is seeded with
the last 16 bytes of `H(dh_x) XOR H(peer_ri)` — exactly message 1's hash
field as emitted by `next_frame`; the initiator's decrypt-side IV is seeded
with the last 16 bytes of the responder's `dh_y` from message 2; and on the
inbound side those same message-1 hash bytes seed the responder's
*decrypt*-side IV, while its encrypt-side IV (a constructor argument) is
untouched by message 1. -/
theorem claim_iv_seeding :
    ∀ (c : CryptoModel) (b : DHSessionKeyBuilder) (own_ri : RouterIdentity) (own_key : Nat)
      (ri_remote : RouterIdentity),
      ((OutboundHandshakeTransport.connect_setup c b own_ri own_key ri_remote).1.iv_enc
          = (xorBytes (c.digest b.get_pub) ri_remote.hash).drop AES_BLOCK_SIZE)
        ∧ ((OutboundHandshakeTransport.connect_setup c b own_ri own_key ri_remote).2.next_frame.1
            = some (.sessionRequest
                { dh_x := b.get_pub
                  hash := xorBytes (c.digest b.get_pub) ri_remote.hash }))
        ∧ (∀ (codec : OutboundHandshakeCodec) (buf : List Nat) frame codec' rest,
            OutboundHandshakeCodec.decode_session_created c codec buf
                = .ok (some (frame, codec', rest)) →
            codec'.aes = some
              { key := codec.dh_key_builder.build_session_key (buf.take 256)
                iv_enc := codec.iv_enc
                iv_dec := (buf.take 256).drop 240 })
        ∧ (∀ (codec : InboundHandshakeCodec) (buf : List Nat) frame codec' rest,
            InboundHandshakeCodec.decode_session_request codec buf
                = .ok (some (frame, codec', rest)) →
            codec'.iv_dec = ((buf.drop 256).take 32).drop AES_BLOCK_SIZE
              ∧ codec'.iv_enc = codec.iv_enc) := by
  intro c b own_ri own_key ri_remote
  refine ⟨rfl, rfl, ?_, ?_⟩
  · intro codec buf frame codec' rest h
    simp only [OutboundHandshakeCodec.decode_session_created, session_created_enc] at h
    by_cases hlen : buf.length < 304
    · rw [if_pos hlen] at h
      exact absurd h (by simp)
    · rw [if_neg hlen] at h
      split at h
      · exact absurd h (by simp)
      · rename_i dh_y encTail consumed heq
        simp only [Option.some.injEq, Prod.mk.injEq] at heq
        obtain ⟨e1, e2, e3⟩ := heq
        subst e1
        subst e2
        subst e3
        split at h
        · exact absurd h (by simp)
        · rename_i hash2 tsb2 heq2
          simp only [Except.ok.injEq, Option.some.injEq, Prod.mk.injEq] at h
          obtain ⟨hf, hc, hr⟩ := h
          subst hc
          have htk : (List.take 256 buf).length = 256 := by
            rw [List.length_take]
            omega
          show some _ = some _
          simp only [List.take_take, Nat.min_self, htk, AES_BLOCK_SIZE]
  · intro codec buf frame codec' rest h
    simp only [InboundHandshakeCodec.decode_session_request, session_request] at h
    by_cases hlen : buf.length < 288
    · rw [if_pos hlen] at h
      exact absurd h (by simp)
    · rw [if_neg hlen] at h
      split at h
      · exact absurd h (by simp)
      · rename_i sr consumed heq
        simp only [Option.some.injEq, Prod.mk.injEq] at heq
        obtain ⟨e1, e2⟩ := heq
        subst e1
        subst e2
        simp only [Except.ok.injEq, Option.some.injEq, Prod.mk.injEq] at h
        obtain ⟨hf, hc, hr⟩ := h
        subst hc
        exact ⟨rfl, rfl⟩

/-- Witness for C5's amended theorem: decoding the sample message 1 seeds
the inbound decrypt IV with the hash tail and leaves the encrypt IV at its
constructor value. -/
theorem claim_iv_seeding_witness :
    wIBCodecAfter.iv_dec = ((wMsg1Buf.drop 256).take 32).drop AES_BLOCK_SIZE
      ∧ wIBCodecAfter.iv_enc = wIBCodec.iv_enc :=
  (claim_iv_seeding wCrypto { dh_priv := 0, dh_pub := 0 } wRI 0 wRI2).2.2.2
    wIBCodec wMsg1Buf wIBFrame wIBCodecAfter [] (by decide)

/-- Counterexample for C5 as stated: on the inbound side the last 16 bytes
of message 1's hash field seed the *decrypt*-side IV, not the encrypt-side
IV — after decoding message 1 the responder's encrypt IV is still the
constructor-supplied value, which differs from the hash tail. -/
theorem claim_iv_seeding_cex :
    InboundHandshakeCodec.decode_session_request wIBCodec wMsg1Buf
        = .ok (some (wIBFrame, wIBCodecAfter, []))
      ∧ wIBCodecAfter.iv_enc ≠ ((wMsg1Buf.drop 256).take 32).drop AES_BLOCK_SIZE
      ∧ wIBCodecAfter.iv_dec = ((wMsg1Buf.drop 256).take 32).drop AES_BLOCK_SIZE := by
  decide

/-- C7: `Codec::encode` fails with an `InvalidData` "larger than MTU" error
— encoding nothing — for every frame whose serialization needs more than
`NTCP_MTU = 16384` bytes, and serializes, truncates and encrypts in place
(with the session AES state) every frame that fits. -/
theorem claim_codec_encode :
    NTCP_MTU = 16384
      ∧ ∀ (c : CryptoModel) (codec : Codec) (f : Frame),
          (NTCP_MTU < (serializeFrame f).length →
              Codec.encode c codec f
                = .error
                    { kind := .invalidData
                      msg := "message (" ++ toString (serializeFrame f).length
                        ++ ") larger than MTU (" ++ toString NTCP_MTU ++ ")" })
            ∧ ((serializeFrame f).length ≤ NTCP_MTU →
                Codec.encode c codec f
                  = .ok (c.encryptWith codec.aes.key codec.aes.iv_enc (serializeFrame f))) := by
  refine ⟨rfl, fun c codec f => ⟨fun hbig => ?_, fun hfit => ?_⟩⟩
  · have hgen : gen_frame f = .error (serializeFrame f).length := by
      simp only [gen_frame]
      rw [if_pos hbig]
    simp only [Codec.encode, hgen]
  · have h1 := (serializeFrame_blocks f).1
    have h2 := (serializeFrame_blocks f).2
    have henc : encryptBlocksLen (serializeFrame f).length
        = some (serializeFrame f).length := by
      simp only [encryptBlocksLen, AES_BLOCK_SIZE]
      rw [if_neg (by omega)]
      congr 1
      omega
    have hgen : gen_frame f = .ok (serializeFrame f) := by
      simp only [gen_frame]
      rw [if_neg (not_lt.mpr hfit)]
    simp only [Codec.encode, hgen, henc]
    simp

/-- The serialized length of a `Standard` frame as a function of the
payload length. -/
theorem serializeFrame_standard_length (m : Message) :
    (serializeFrame (.standard m)).length
      = m.payload.length + 2 + ((16 - (m.payload.length + 2 + 4) % 16) % 16) + 4 := by
  simp only [serializeFrame]
  simp only [List.length_append, List.length_replicate, adler32_length, be16_length]
  omega

/-- Witness for C7: a 16384-byte message serializes to a 16400-byte frame
and is rejected; a `TimeSync` frame fits and is encrypted; both by the
claim theorem. -/
theorem claim_codec_encode_witness :
    (NTCP_MTU < (serializeFrame (.standard wBigMsg)).length
        ∧ Codec.encode wCrypto wCodec (.standard wBigMsg)
            = .error
                { kind := .invalidData
                  msg := "message (" ++ toString (serializeFrame (.standard wBigMsg)).length
                    ++ ") larger than MTU (" ++ toString NTCP_MTU ++ ")" })
      ∧ ((serializeFrame (.timeSync 0)).length ≤ NTCP_MTU
        ∧ Codec.encode wCrypto wCodec (.timeSync 0)
            = .ok (wCrypto.encryptWith wCodec.aes.key wCodec.aes.iv_enc
                (serializeFrame (.timeSync 0)))) := by
  have hbiglen : (serializeFrame (.standard wBigMsg)).length = 16400 := by
    rw [serializeFrame_standard_length]
    have h : wBigMsg.payload.length = 16384 := by
      show (List.replicate 16384 0).length = 16384
      rw [List.length_replicate]
    rw [h]
  have hbig : NTCP_MTU < (serializeFrame (.standard wBigMsg)).length := by
    rw [hbiglen]
    decide
  have hfit : (serializeFrame (.timeSync 0)).length ≤ NTCP_MTU := by decide
  exact ⟨⟨hbig, (claim_codec_encode.2 wCrypto wCodec (.standard wBigMsg)).1 hbig⟩,
    ⟨hfit, (claim_codec_encode.2 wCrypto wCodec (.timeSync 0)).2 hfit⟩⟩

/-- C6: when the 10-second timer (`Duration::new(10, 0)`) wins the select
against the handshake, `Engine::connect` resolves to the io error
`"timeout during handshake"`, and no session value is exposed on that path;
the handshake winning yields the connected transport, and a failing future
propagates its own error. -/
theorem claim_handshake_timeout :
    NTCP_HANDSHAKE_TIMEOUT_SECS = 10
      ∧ (∀ (Conn : Type),
          @Engine.connect_resolve Conn (.ok (.error ()))
            = .error { kind := .other, msg := "timeout during handshake" })
      ∧ (∀ (Conn : Type) (conn : Conn),
          Engine.connect_resolve (.ok (.ok conn)) = .ok conn)
      ∧ (∀ (Conn : Type) (e : IoError),
          @Engine.connect_resolve Conn (.error e) = .error e) :=
  ⟨rfl, fun _ => rfl, fun _ _ => rfl, fun _ _ => rfl⟩

/-- Witness for C9: a freshly constructed dispatcher carries its engine, so
the claim theorem applies to it. -/
theorem claim_manager_start_witness :
    (Manager.new (fun _ _ => none) (fun _ _ => none)).engine
        = some { select_flag := false }
      ∧ ({ Manager.new (fun _ _ => none) (fun _ _ => none) with engine := none }
            : Manager).start
          = .error "Cannot call listen() twice" :=
  ⟨rfl,
   (claim_manager_start (Manager.new (fun _ _ => none) (fun _ _ => none))
      { select_flag := false } rfl).2⟩

end Ire

